import Mathlib

set_option linter.unusedVariables false
set_option maxRecDepth 10000

attribute [local semireducible] Rat.ofScientific Rat.mul Rat.inv Rat.add Rat.sub

/-!
Shallow embedding of the cosmos-system-5 service cores (Organization, Sales,
Treasury, Market) and proofs about them.

Modelling conventions, used throughout:
* JS numbers are `Rat` (scores, proficiencies), `Nat` (timestamps in ms,
  counts) or `Int` (differences, floored random draws), as each site demands.
* A JS `Map<string, T>` is an insertion-ordered association list
  `List (String × T)`; `Map.set` replaces in place or appends, `Map.get`
  returns the first (unique) match.
* `Date.now()` / `new Date()` and `Math.random()` are injected through an
  environment `Env` holding two sample streams; a counter `Cnt` records how
  many samples of each stream have been consumed, and every sampling site
  consumes the next sample in program order.  Clock monotonicity
  (`Monotone e.time`) is the standard wall-clock assumption and appears as a
  hypothesis exactly where a claim needs it.
* JS truthiness: `x || d` on strings treats `""` as falsy (`jsOrStr`), on
  numbers treats `0` as falsy (`jsOrRat`); arrays and objects are always
  truthy, so `x || d` on them is `Option.getD`; `x ?? d` is `Option.getD`.
* Accessing a property of `undefined` throws a TypeError; the services that
  can hit this (Sales) return `Except JsError`, the others are total because
  every field access in them is guarded in the source.
* `BaseService.log` lives in the shared library (outside `src/`); modelled
  from the spec as appending a `(level, message)` pair to the invocation's
  log output (structured metadata arguments are elided).
-/

/-- JS `a || b` for strings: `""` is falsy. -/
def jsOrStr (v : Option String) (fallback : String) : String :=
  match v with
  | some s => if s = "" then fallback else s
  | none => fallback

/-- JS `a || b` for numbers: `0` is falsy. -/
def jsOrRat (v : Option Rat) (fallback : Rat) : Rat :=
  match v with
  | some x => if x = 0 then fallback else x
  | none => fallback

/-- JS truthiness of a possibly-absent string (`if (s)`): present and nonempty. -/
def jsTruthyStr (v : Option String) : Bool :=
  match v with
  | some s => s ≠ ""
  | none => false

/-- JS `Map.get`: first entry with the given key. -/
def jsMapGet {α : Type} (m : List (String × α)) (k : String) : Option α :=
  (m.find? (fun p => p.1 == k)).map (fun p => p.2)

/-- JS `Map.set`: replace the entry in place if the key exists, else append. -/
def jsMapSet {α : Type} (m : List (String × α)) (k : String) (v : α) :
    List (String × α) :=
  match m with
  | [] => [(k, v)]
  | (k', v') :: rest =>
      if k' == k then (k, v) :: rest else (k', v') :: jsMapSet rest k v

/-- JS `Array.from(map.values())`: the values in insertion order. -/
def jsMapValues {α : Type} (m : List (String × α)) : List α :=
  m.map (fun p => p.2)

/-- JS `xs.slice(-n)`: the last `n` elements (all of them when `n ≥ length`). -/
def jsSliceLast {α : Type} (xs : List α) (n : Nat) : List α :=
  xs.drop (xs.length - n)

/-- JS `xs.slice(-a, -b)` for `a > b`: elements from index `len - a` up to
index `len - b` (exclusive). -/
def jsSliceNeg {α : Type} (xs : List α) (a b : Nat) : List α :=
  (xs.drop (xs.length - a)).take (a - b)

/-- JS `s.toLowerCase()` (over the character list, so it computes by
kernel reduction). -/
def strToLower (s : String) : String :=
  String.mk (s.data.map Char.toLower)

/-- List-level substring test: does `sub` occur contiguously in `l`? -/
def listContainsSub (sub l : List Char) : Bool :=
  l.tails.any (fun t => sub.isPrefixOf t)

/-- JS `s.includes(sub)`. -/
def strIncludes (s sub : String) : Bool :=
  listContainsSub sub.data s.data

/-- Injected environment: the `Date.now()` / `new Date()` sample stream and
the `Math.random()` sample stream. -/
structure Env where
  time : Nat → Nat
  rand : Nat → Rat

/-- How many samples of each stream have been consumed so far. -/
structure Cnt where
  t : Nat
  r : Nat
deriving DecidableEq

/-- Consume the next clock sample (`Date.now()` / `new Date()`). -/
def tick (e : Env) (c : Cnt) : Nat × Cnt :=
  (e.time c.t, ⟨c.t + 1, c.r⟩)

/-- Consume the next random sample (`Math.random()`). -/
def roll (e : Env) (c : Cnt) : Rat × Cnt :=
  (e.rand c.r, ⟨c.t, c.r + 1⟩)

/-- A JS TypeError raised by accessing a property of `undefined`. -/
inductive JsError where
  | typeError (message : String)
deriving DecidableEq

/-- ServiceConfig, with the fields every `src` service instantiates
(e.g. the sales and market `index.ts` files). -/
structure ServiceConfig where
  port : Nat
  serviceName : String
  triadType : String
  serviceType : String
  environment : String

/-- The uniform message envelope exchanged with a service. -/
structure ServiceMessage (P : Type) where
  id : String
  type : String
  payload : P
  source : String
  destination : String
  timestamp : Nat
deriving DecidableEq

/-- Modelled from the spec: `createMessage(type, payload, source, destination)`
from the shared library (not under `src/`) always succeeds and assigns a fresh
id and timestamp; the timestamp is the clock sample taken at creation. -/
def createMessage {P : Type} (mtype : String) (payload : P)
    (src dst : String) (now : Nat) : ServiceMessage P :=
  { id := "msg-" ++ toString now
    type := mtype
    payload := payload
    source := src
    destination := dst
    timestamp := now }

/-- The common response-payload shape: handler-specific fields (`data`) plus
`processingTime` and `source`, as every handler builds. -/
structure RespPayload (D : Type) where
  data : D
  processingTime : Int
  source : String
deriving DecidableEq

/-- Build a handler response: sample `Date.now()` for `processingTime`, then
let `createMessage` take its own fresh timestamp. -/
def mkResponse {D : Type} (e : Env) (c : Cnt) (cfg : ServiceConfig)
    (startTime : Nat) (rtype : String) (dest : String) (d : D) :
    ServiceMessage (RespPayload D) × Cnt :=
  let (nowPT, c1) := tick e c
  let payload : RespPayload D :=
    { data := d
      processingTime := (nowPT : Int) - (startTime : Int)
      source := cfg.serviceName }
  let (ts, c2) := tick e c1
  (createMessage rtype payload cfg.serviceName dest ts, c2)

/-- One `(level, message)` log line. -/
abbrev LogEntry : Type := String × String

/- ===================== Organization service (O-4) ===================== -/

inductive ComponentStatus where
  | operational | degraded | offline
deriving DecidableEq

structure OrganizationComponent where
  id : String
  name : String
  role : String
  dependencies : List String
  status : ComponentStatus
deriving DecidableEq

inductive OrgStatus where
  | active | inactive | pending | optimizing
deriving DecidableEq

structure OrganizationMetrics where
  efficiency : Rat
  coordination : Rat
  responsiveness : Rat
  stability : Rat
deriving DecidableEq

structure SystemOrganization where
  id : String
  name : String
  type : String
  components : List OrganizationComponent
  status : OrgStatus
  metrics : OrganizationMetrics
  lastUpdated : Nat
deriving DecidableEq

structure CoordinationSchedule where
  frequency : String
  nextExecution : Nat
  lastExecution : Option Nat
  executionCount : Nat
deriving DecidableEq

structure BackgroundCoordination where
  id : String
  coordinationType : String
  participants : List String
  priority : String
  schedule : CoordinationSchedule
  results : List Unit
deriving DecidableEq

inductive MaintStatus where
  | scheduled | inProgress | completed | failed
deriving DecidableEq

structure MaintenanceResult where
  success : Bool
  itemsProcessed : Int
  issuesFound : Int
  issuesResolved : Int
  recommendations : List String
deriving DecidableEq

structure SystemMaintenance where
  id : String
  maintenanceType : String
  targets : List String
  status : MaintStatus
  scheduledAt : Nat
  completedAt : Option Nat
  results : MaintenanceResult
deriving DecidableEq

structure OrgState where
  organizations : List (String × SystemOrganization)
  coordinations : List (String × BackgroundCoordination)
  maintenanceTasks : List (String × SystemMaintenance)
  systemHealth : List (String × Rat)
deriving DecidableEq

/-- A `Partial<OrganizationComponent>` element of the request payload. -/
structure ComponentSpec where
  id : Option String := none
  name : Option String := none
  role : Option String := none
  dependencies : Option (List String) := none
deriving DecidableEq

/-- The open request payload, restricted to the fields the organization
handlers read. -/
structure OrgPayload where
  name : Option String := none
  type : Option String := none
  components : Option (List ComponentSpec) := none
  coordinationType : Option String := none
  participants : Option (List String) := none
  priority : Option String := none
  frequency : Option String := none
  maintenanceType : Option String := none
  targets : Option (List String) := none
  scheduledTime : Option Nat := none
  maintenanceId : Option String := none
  organizationId : Option String := none
  includeComponents : Option Bool := none
  optimizationType : Option String := none
  syncType : Option String := none
  data : Option Unit := none
deriving DecidableEq

/-- The `(components || []).map((c, i) => ...)` loop; `c.id || fallback`
samples `Date.now()` only when the id is absent or empty (JS `||`). -/
def buildComponents (e : Env) (c : Cnt) (i : Nat) :
    List ComponentSpec → List OrganizationComponent × Cnt
  | [] => ([], c)
  | spec :: rest =>
      let (cid, c1) :=
        match spec.id with
        | some s =>
            if s = "" then
              let (t, c') := tick e c
              ("comp-" ++ toString t ++ "-" ++ toString i, c')
            else (s, c)
        | none =>
            let (t, c') := tick e c
            ("comp-" ++ toString t ++ "-" ++ toString i, c')
      let comp : OrganizationComponent :=
        { id := cid
          name := jsOrStr spec.name ("component-" ++ toString i)
          role := jsOrStr spec.role "worker"
          dependencies := spec.dependencies.getD []
          status := .operational }
      let (comps, c2) := buildComponents e c1 (i + 1) rest
      (comp :: comps, c2)

def defaultOrgComponents : List OrganizationComponent :=
  [ { id := "coord-1", name := "coordination-hub", role := "coordinator"
      dependencies := [], status := .operational }
  , { id := "worker-1", name := "background-worker", role := "worker"
      dependencies := ["coord-1"], status := .operational }
  , { id := "monitor-1", name := "health-monitor", role := "monitor"
      dependencies := ["coord-1"], status := .operational } ]

def createOrganization (e : Env) (c : Cnt) (name orgType : Option String)
    (components : Option (List ComponentSpec)) : SystemOrganization × Cnt :=
  let (mapped, c1) := buildComponents e c 0 (components.getD [])
  let orgComponents :=
    if mapped.length = 0 then mapped ++ defaultOrgComponents else mapped
  let (tId, c2) := tick e c1
  let (tUpd, c3) := tick e c2
  ({ id := "org-" ++ toString tId
     name := jsOrStr name "system-organization"
     type := jsOrStr orgType "coordination"
     components := orgComponents
     status := .active
     metrics :=
       { efficiency := 0.85, coordination := 0.9
         responsiveness := 0.8, stability := 0.95 }
     lastUpdated := tUpd }, c3)

def createBackgroundCoordination (e : Env) (c : Cnt)
    (coordinationType : Option String) (participants : Option (List String))
    (priority frequency : Option String) : BackgroundCoordination × Cnt :=
  let (now, c1) := tick e c
  let nextExecution := now + 60000
  let (tId, c2) := tick e c1
  ({ id := "coord-" ++ toString tId
     coordinationType := jsOrStr coordinationType "general"
     participants := participants.getD
       ["monitoring-service", "state-management-service", "process-director"]
     priority := jsOrStr priority "medium"
     schedule :=
       { frequency := jsOrStr frequency "5m"
         nextExecution := nextExecution
         lastExecution := none
         executionCount := 0 }
     results := [] }, c2)

def scheduleMaintenance (e : Env) (c : Cnt) (maintenanceType : Option String)
    (targets : Option (List String)) (scheduledTime : Option Nat) :
    SystemMaintenance × Cnt :=
  let (tId, c1) := tick e c
  let (schedAt, c2) :=
    match scheduledTime with
    | some t => (t, c1)
    | none =>
        let (t, c') := tick e c1
        (t + 3600000, c')
  ({ id := "maint-" ++ toString tId
     maintenanceType := jsOrStr maintenanceType "routine"
     targets := targets.getD ["all-services"]
     status := .scheduled
     scheduledAt := schedAt
     completedAt := none
     results :=
       { success := false, itemsProcessed := 0, issuesFound := 0
         issuesResolved := 0, recommendations := [] } }, c2)

def executeMaintenance (e : Env) (c : Cnt) (m : SystemMaintenance) :
    MaintenanceResult × SystemMaintenance × Cnt :=
  let m1 := { m with status := MaintStatus.inProgress }
  let itemsProcessed : Int := (m1.targets.length : Int) * 5
  let (r1, c1) := roll e c
  let issuesFound : Int := Rat.floor (r1 * 3)
  let (r2, c2) := roll e c1
  let issuesResolved : Int :=
    min issuesFound (Rat.floor (r2 * ((issuesFound : Rat) + 1)))
  let recs1 : List String :=
    if issuesFound > issuesResolved then
      ["Manual intervention required for unresolved issues"] else []
  let recs2 : List String :=
    if itemsProcessed > 10 then
      ["Consider optimizing maintenance scope for efficiency"] else []
  let recommendations :=
    recs1 ++ recs2 ++ ["Schedule follow-up maintenance in 24 hours"]
  let results : MaintenanceResult :=
    { success := issuesResolved ≥ issuesFound
      itemsProcessed := itemsProcessed
      issuesFound := issuesFound
      issuesResolved := issuesResolved
      recommendations := recommendations }
  let (tDone, c3) := tick e c2
  let m2 :=
    { m1 with
        status := if results.success then MaintStatus.completed else MaintStatus.failed
        completedAt := some tDone
        results := results }
  (results, m2, c3)

/-- The `organizationId` branch of `GET_ORGANIZATION_STATUS`. -/
inductive StatusLookup where
  | foundOrg (organization : SystemOrganization)
  | notFound (organizationId : Option String)
deriving DecidableEq

structure OrgSummary where
  totalOrganizations : Nat
  activeOrganizations : Nat
  totalCoordinations : Nat
  pendingMaintenance : Nat
  completedMaintenance : Nat
  overallHealth : Rat
deriving DecidableEq

structure SlimOrganization where
  id : String
  name : String
  type : String
  status : OrgStatus
  metrics : OrganizationMetrics
deriving DecidableEq

/-- `includeComponents ? allOrgs : allOrgs.map(slim)`. -/
inductive OrgListing where
  | fullList (orgs : List SystemOrganization)
  | slimList (orgs : List SlimOrganization)
deriving DecidableEq

structure OverallOrgStatus where
  summary : OrgSummary
  organizations : OrgListing
  activeCoordinations : List BackgroundCoordination
  recentMaintenance : List SystemMaintenance
  systemHealthMetrics : List (String × Rat)
deriving DecidableEq

inductive OrgStatusReport where
  | byId (lookup : StatusLookup)
  | overall (report : OverallOrgStatus)
deriving DecidableEq

def calculateOverallHealth (orgs : List SystemOrganization) : Rat :=
  if orgs.length = 0 then 1.0 else
  let metrics := orgs.map (fun o => o.metrics)
  let n : Rat := (metrics.length : Rat)
  let avgEfficiency := (metrics.foldl (fun s m => s + m.efficiency) 0) / n
  let avgCoordination := (metrics.foldl (fun s m => s + m.coordination) 0) / n
  let avgResponsiveness := (metrics.foldl (fun s m => s + m.responsiveness) 0) / n
  let avgStability := (metrics.foldl (fun s m => s + m.stability) 0) / n
  (avgEfficiency + avgCoordination + avgResponsiveness + avgStability) / 4

/-- `allCoordinations.filter(c => c.schedule.executionCount > 0 ||
c.schedule.nextExecution > new Date())`; the right disjunct samples the clock
only when the left one is false (JS `||`). -/
def filterActiveCoords (e : Env) (c : Cnt) :
    List BackgroundCoordination → List BackgroundCoordination × Cnt
  | [] => ([], c)
  | co :: rest =>
      let (keep, c1) :=
        if co.schedule.executionCount > 0 then (true, c)
        else
          let (nowV, c') := tick e c
          (decide (co.schedule.nextExecution > nowV), c')
      let (others, c2) := filterActiveCoords e c1 rest
      (if keep then co :: others else others, c2)

def getOverallOrganizationStatus (e : Env) (c : Cnt) (st : OrgState)
    (includeComponents : Option Bool) : OverallOrgStatus × Cnt :=
  let allOrgs := jsMapValues st.organizations
  let allCoordinations := jsMapValues st.coordinations
  let allMaintenance := jsMapValues st.maintenanceTasks
  let activeOrgs := allOrgs.filter (fun o => o.status == OrgStatus.active)
  let pendingMaintenance :=
    allMaintenance.filter (fun m => m.status == MaintStatus.scheduled)
  let completedMaintenance :=
    allMaintenance.filter (fun m => m.status == MaintStatus.completed)
  let overallHealth := calculateOverallHealth allOrgs
  let (activeCoords, c1) := filterActiveCoords e c allCoordinations
  ({ summary :=
       { totalOrganizations := allOrgs.length
         activeOrganizations := activeOrgs.length
         totalCoordinations := allCoordinations.length
         pendingMaintenance := pendingMaintenance.length
         completedMaintenance := completedMaintenance.length
         overallHealth := overallHealth }
     organizations :=
       if includeComponents.getD false then OrgListing.fullList allOrgs
       else OrgListing.slimList (allOrgs.map (fun o =>
         { id := o.id, name := o.name, type := o.type
           status := o.status, metrics := o.metrics }))
     activeCoordinations := activeCoords
     recentMaintenance := jsSliceLast allMaintenance 5
     systemHealthMetrics := st.systemHealth }, c1)

/-- `Partial<OrganizationMetrics>` built up by `optimizeOrganization`. -/
structure MetricsImprovement where
  efficiency : Option Rat := none
  coordination : Option Rat := none
  responsiveness : Option Rat := none
  stability : Option Rat := none
deriving DecidableEq

structure StateSyncIntent where
  required : Bool
  type : String
  priority : String
deriving DecidableEq

structure OptimizeReport where
  appliedOptimizations : List String
  metricsImprovement : MetricsImprovement
  stateManagementSync : StateSyncIntent
deriving DecidableEq

/-- `optimizeOrganization`: when an organization is present its status is set
to `optimizing`, the four metrics are incremented under `Math.min(1, ·)`, and
the status is set back to `active`; the returned organization is the final
(mutated) one stored back under its map key by the caller. -/
def optimizeOrganization (e : Env) (c : Cnt)
    (organization : Option SystemOrganization) (optimizationType : Option String) :
    OptimizeReport × Option SystemOrganization × Cnt :=
  match organization with
  | some org =>
      let org1 := { org with status := OrgStatus.optimizing }
      let (opts1, impEff) :=
        if org1.metrics.efficiency < (0.9 : Rat) then
          (["Streamline component communication paths"], some (0.05 : Rat))
        else ([], none)
      let (opts2, impCoord) :=
        if org1.metrics.coordination < (0.9 : Rat) then
          (["Enhance inter-component coordination protocols"], some (0.03 : Rat))
        else ([], none)
      let (opts3, impResp) :=
        if org1.metrics.responsiveness < (0.9 : Rat) then
          (["Reduce latency in background operations"], some (0.04 : Rat))
        else ([], none)
      let (opts4, impStab) :=
        if org1.metrics.stability < (0.95 : Rat) then
          (["Implement additional failover mechanisms"], some (0.02 : Rat))
        else ([], none)
      let improvement : MetricsImprovement :=
        { efficiency := impEff, coordination := impCoord
          responsiveness := impResp, stability := impStab }
      let newMetrics : OrganizationMetrics :=
        { efficiency := min 1 (org1.metrics.efficiency + jsOrRat impEff 0)
          coordination := min 1 (org1.metrics.coordination + jsOrRat impCoord 0)
          responsiveness := min 1 (org1.metrics.responsiveness + jsOrRat impResp 0)
          stability := min 1 (org1.metrics.stability + jsOrRat impStab 0) }
      let (tUpd, c1) := tick e c
      let org2 :=
        { org1 with
            metrics := newMetrics
            status := OrgStatus.active
            lastUpdated := tUpd }
      ({ appliedOptimizations := opts1 ++ opts2 ++ opts3 ++ opts4
         metricsImprovement := improvement
         stateManagementSync :=
           { required := true, type := "organization_update", priority := "medium" } },
       some org2, c1)
  | none =>
      ({ appliedOptimizations :=
           [ "System-wide organization review completed"
           , "Background coordination patterns analyzed"
           , "Maintenance schedules optimized" ]
         metricsImprovement := {}
         stateManagementSync :=
           { required := true, type := "organization_update", priority := "medium" } },
       none, c)

structure SlimOrgSync where
  id : String
  name : String
  status : OrgStatus
  metrics : OrganizationMetrics
deriving DecidableEq

structure OrgSyncSnapshot where
  organizations : List SlimOrgSync
  activeCoordinations : Nat
  pendingMaintenance : Nat
  systemHealthMetrics : List (String × Rat)
deriving DecidableEq

structure SyncResult where
  syncType : String
  timestamp : Nat
  dataSynced : OrgSyncSnapshot
  targetService : String
  bidirectional : Bool
  nextScheduledSync : Nat
deriving DecidableEq

def syncWithStateManagement (e : Env) (c : Cnt) (st : OrgState)
    (syncType : Option String) (srcData : Option Unit) : SyncResult × Cnt :=
  let (syncTimestamp, c1) := tick e c
  let organizationState : OrgSyncSnapshot :=
    { organizations := (jsMapValues st.organizations).map (fun o =>
        { id := o.id, name := o.name, status := o.status, metrics := o.metrics })
      activeCoordinations := st.coordinations.length
      pendingMaintenance :=
        ((jsMapValues st.maintenanceTasks).filter
          (fun m => m.status == MaintStatus.scheduled)).length
      systemHealthMetrics := st.systemHealth }
  ({ syncType := jsOrStr syncType "full"
     timestamp := syncTimestamp
     dataSynced := organizationState
     targetService := "state-management-service"
     bidirectional := true
     nextScheduledSync := syncTimestamp + 300000 }, c1)

/-- Handler-specific response payload fields of the organization service. -/
inductive OrgRespData where
  | organizationCreated (organization : SystemOrganization)
  | coordinationCreated (coordination : BackgroundCoordination)
  | maintenanceScheduled (maintenance : SystemMaintenance)
  | maintenanceError (error : String) (maintenanceId : Option String)
  | maintenanceExecuted (maintenanceId : String) (results : MaintenanceResult)
  | statusRetrieved (status : OrgStatusReport)
  | organizationOptimized (organizationId : String) (optimizations : OptimizeReport)
  | stateSynced (syncResult : SyncResult)
deriving DecidableEq

def OrgResp : Type := ServiceMessage (RespPayload OrgRespData)

def handleCreateOrganization (e : Env) (c : Cnt) (cfg : ServiceConfig)
    (st : OrgState) (msg : ServiceMessage OrgPayload) (startTime : Nat) :
    OrgState × OrgResp × Cnt :=
  let (org, c1) := createOrganization e c msg.payload.name msg.payload.type
    msg.payload.components
  let st' := { st with organizations := jsMapSet st.organizations org.id org }
  let (resp, c2) := mkResponse e c1 cfg startTime "ORGANIZATION_CREATED"
    msg.source (OrgRespData.organizationCreated org)
  (st', resp, c2)

def handleBackgroundCoordination (e : Env) (c : Cnt) (cfg : ServiceConfig)
    (st : OrgState) (msg : ServiceMessage OrgPayload) (startTime : Nat) :
    OrgState × OrgResp × Cnt :=
  let (coordination, c1) := createBackgroundCoordination e c
    msg.payload.coordinationType msg.payload.participants msg.payload.priority
    msg.payload.frequency
  let st' :=
    { st with coordinations := jsMapSet st.coordinations coordination.id coordination }
  let (resp, c2) := mkResponse e c1 cfg startTime "BACKGROUND_COORDINATION_CREATED"
    msg.source (OrgRespData.coordinationCreated coordination)
  (st', resp, c2)

def handleScheduleMaintenance (e : Env) (c : Cnt) (cfg : ServiceConfig)
    (st : OrgState) (msg : ServiceMessage OrgPayload) (startTime : Nat) :
    OrgState × OrgResp × Cnt :=
  let (maintenance, c1) := scheduleMaintenance e c msg.payload.maintenanceType
    msg.payload.targets msg.payload.scheduledTime
  let st' :=
    { st with maintenanceTasks := jsMapSet st.maintenanceTasks maintenance.id maintenance }
  let (resp, c2) := mkResponse e c1 cfg startTime "MAINTENANCE_SCHEDULED"
    msg.source (OrgRespData.maintenanceScheduled maintenance)
  (st', resp, c2)

/-- `maintenanceTasks.get(maintenanceId)` with a possibly-absent key:
`Map.get(undefined)` is `undefined`. -/
def lookupMaintenance (st : OrgState) (maintenanceId : Option String) :
    Option SystemMaintenance :=
  match maintenanceId with
  | some k => jsMapGet st.maintenanceTasks k
  | none => none

def handleExecuteMaintenance (e : Env) (c : Cnt) (cfg : ServiceConfig)
    (st : OrgState) (msg : ServiceMessage OrgPayload) (startTime : Nat) :
    OrgState × OrgResp × Cnt :=
  match lookupMaintenance st msg.payload.maintenanceId with
  | none =>
      let (resp, c1) := mkResponse e c cfg startTime "MAINTENANCE_EXECUTION_ERROR"
        msg.source (OrgRespData.maintenanceError "Maintenance task not found"
          msg.payload.maintenanceId)
      (st, resp, c1)
  | some maintenance =>
      let (results, m2, c1) := executeMaintenance e c maintenance
      -- the executed task is the very object stored in the map, so the
      -- in-place mutation lands at the looked-up key (which is its id)
      let st' :=
        { st with
            maintenanceTasks :=
              jsMapSet st.maintenanceTasks (msg.payload.maintenanceId.getD "") m2 }
      let (resp, c2) := mkResponse e c1 cfg startTime "MAINTENANCE_EXECUTED"
        msg.source (OrgRespData.maintenanceExecuted m2.id results)
      (st', resp, c2)

def handleGetOrganizationStatus (e : Env) (c : Cnt) (cfg : ServiceConfig)
    (st : OrgState) (msg : ServiceMessage OrgPayload) (startTime : Nat) :
    OrgState × OrgResp × Cnt :=
  let (report, c1) :=
    if jsTruthyStr msg.payload.organizationId then
      let org := jsMapGet st.organizations (msg.payload.organizationId.getD "")
      (OrgStatusReport.byId
        (match org with
         | some o => StatusLookup.foundOrg o
         | none => StatusLookup.notFound msg.payload.organizationId), c)
    else
      let (overall, c') :=
        getOverallOrganizationStatus e c st msg.payload.includeComponents
      (OrgStatusReport.overall overall, c')
  let (resp, c2) := mkResponse e c1 cfg startTime "ORGANIZATION_STATUS_RETRIEVED"
    msg.source (OrgRespData.statusRetrieved report)
  (st, resp, c2)

def handleOptimizeOrganization (e : Env) (c : Cnt) (cfg : ServiceConfig)
    (st : OrgState) (msg : ServiceMessage OrgPayload) (startTime : Nat) :
    OrgState × OrgResp × Cnt :=
  let orgOpt :=
    if jsTruthyStr msg.payload.organizationId then
      jsMapGet st.organizations (msg.payload.organizationId.getD "")
    else none
  let (optimizations, orgOpt', c1) :=
    optimizeOrganization e c orgOpt msg.payload.optimizationType
  let st' :=
    match orgOpt' with
    | some org2 =>
        { st with
            organizations :=
              jsMapSet st.organizations (msg.payload.organizationId.getD "") org2 }
    | none => st
  let (resp, c2) := mkResponse e c1 cfg startTime "ORGANIZATION_OPTIMIZED"
    msg.source (OrgRespData.organizationOptimized
      (jsOrStr (orgOpt'.map (fun o => o.id)) "all") optimizations)
  (st', resp, c2)

def handleSyncWithStateManagement (e : Env) (c : Cnt) (cfg : ServiceConfig)
    (st : OrgState) (msg : ServiceMessage OrgPayload) (startTime : Nat) :
    OrgState × OrgResp × Cnt :=
  let (syncResult, c1) := syncWithStateManagement e c st msg.payload.syncType
    msg.payload.data
  let (resp, c2) := mkResponse e c1 cfg startTime "STATE_MANAGEMENT_SYNCED"
    msg.source (OrgRespData.stateSynced syncResult)
  (st, resp, c2)

def orgMessageTypes : List String :=
  [ "CREATE_ORGANIZATION", "COORDINATE_BACKGROUND", "SCHEDULE_MAINTENANCE"
  , "EXECUTE_MAINTENANCE", "GET_ORGANIZATION_STATUS", "OPTIMIZE_ORGANIZATION"
  , "SYNC_WITH_STATE_MANAGEMENT" ]

structure OrgProcOut where
  state : OrgState
  response : Option OrgResp
  logs : List LogEntry
  cnt : Cnt

/-- `OrganizationService.process`: sample `Date.now()` as `startTime`, log,
dispatch on the exact message type, or log a warning and return `null`. -/
def orgProcess (cfg : ServiceConfig) (e : Env) (c : Cnt) (st : OrgState)
    (msg : ServiceMessage OrgPayload) : OrgProcOut :=
  let (startTime, c0) := tick e c
  let logs : List LogEntry := [("info", "Processing organization request")]
  if msg.type = "CREATE_ORGANIZATION" then
    let (st', resp, c1) := handleCreateOrganization e c0 cfg st msg startTime
    ⟨st', some resp, logs, c1⟩
  else if msg.type = "COORDINATE_BACKGROUND" then
    let (st', resp, c1) := handleBackgroundCoordination e c0 cfg st msg startTime
    ⟨st', some resp, logs, c1⟩
  else if msg.type = "SCHEDULE_MAINTENANCE" then
    let (st', resp, c1) := handleScheduleMaintenance e c0 cfg st msg startTime
    ⟨st', some resp, logs, c1⟩
  else if msg.type = "EXECUTE_MAINTENANCE" then
    let (st', resp, c1) := handleExecuteMaintenance e c0 cfg st msg startTime
    ⟨st', some resp, logs, c1⟩
  else if msg.type = "GET_ORGANIZATION_STATUS" then
    let (st', resp, c1) := handleGetOrganizationStatus e c0 cfg st msg startTime
    ⟨st', some resp, logs, c1⟩
  else if msg.type = "OPTIMIZE_ORGANIZATION" then
    let (st', resp, c1) := handleOptimizeOrganization e c0 cfg st msg startTime
    ⟨st', some resp, logs, c1⟩
  else if msg.type = "SYNC_WITH_STATE_MANAGEMENT" then
    let (st', resp, c1) := handleSyncWithStateManagement e c0 cfg st msg startTime
    ⟨st', some resp, logs, c1⟩
  else
    ⟨st, none, logs ++ [("warn", "Unknown message type")], c0⟩

/-- The constructor: empty stores, then `initializeOrganizationFramework`
seeds the default organization, coordination and health metrics. -/
def initOrganizationFramework (e : Env) (c : Cnt) : OrgState × Cnt :=
  let (defaultOrg, c1) :=
    createOrganization e c (some "autonomic-core") (some "coordination") none
  let orgs := jsMapSet [] defaultOrg.id defaultOrg
  let (defaultCoord, c2) := createBackgroundCoordination e c1
    (some "system-health")
    (some ["monitoring-service", "state-management-service", "process-director"])
    (some "high") (some "1m")
  let coords := jsMapSet [] defaultCoord.id defaultCoord
  let health :=
    jsMapSet (jsMapSet (jsMapSet (jsMapSet [] "autonomic-triad" 0.95)
      "background-processes" 0.9) "coordination-efficiency" 0.85)
      "maintenance-status" 1.0
  ({ organizations := orgs
     coordinations := coords
     maintenanceTasks := []
     systemHealth := health }, c2)

/- ===================== Sales service (S-8) ===================== -/

/-- Abstraction of a non-nullish JS value passed as `output`/`content`: the
observations the sales service makes of it.  `numFields` is
`Object.keys(output).length` (`0` for primitives, so it also models
`Object.keys(output || {}).length` for falsy non-null values); `isObject` is
`typeof output === 'object'`; the `has*Field` flags are the truthiness of the
corresponding properties. -/
structure OutputValue where
  id : Option String := none
  hasDataField : Bool := false
  hasContentField : Bool := false
  hasResultField : Bool := false
  hasMetadataField : Bool := false
  hasSourceField : Bool := false
  numFields : Nat := 0
  isObject : Bool := true
deriving DecidableEq

structure QualityDimensions where
  accuracy : Rat
  completeness : Rat
  relevance : Rat
  clarity : Rat
  timeliness : Rat
deriving DecidableEq

structure QualityAssessment where
  id : String
  outputId : String
  qualityScore : Rat
  dimensions : QualityDimensions
  recommendations : List String
  timestamp : Nat
deriving DecidableEq

inductive PromoStatus where
  | promoted | pending | failed
deriving DecidableEq

structure PromotionResult where
  id : String
  contentId : String
  channels : List String
  reach : Int
  engagement : Int
  status : PromoStatus
deriving DecidableEq

structure MarketReadinessCriteria where
  qualityThreshold : Bool
  complianceCheck : Bool
  formatValidation : Bool
  targetAlignment : Bool
deriving DecidableEq

structure MarketReadiness where
  ready : Bool
  score : Rat
  criteria : MarketReadinessCriteria
  blockers : List String
deriving DecidableEq

structure SalesState where
  qualityThresholds : List (String × Rat)
  promotionChannels : List String
  assessmentHistory : List QualityAssessment
deriving DecidableEq

/-- A `Partial<QualityDimensions>` from the request payload. -/
structure CriteriaSpec where
  accuracy : Option Rat := none
  completeness : Option Rat := none
  relevance : Option Rat := none
  clarity : Option Rat := none
  timeliness : Option Rat := none
deriving DecidableEq

/-- The open request payload, restricted to the fields the sales handlers
read. -/
structure SalesPayload where
  output : Option OutputValue := none
  criteria : Option CriteriaSpec := none
  content : Option OutputValue := none
  targetChannels : Option (List String) := none
  priority : Option String := none
  requirements : Option Unit := none
  targetMarket : Option String := none
deriving DecidableEq

def evaluateAccuracy (e : Env) (c : Cnt) (output : OutputValue) : Rat × Cnt :=
  let hasData := output.hasDataField || output.hasContentField || output.hasResultField
  let hasMetadata := output.hasMetadataField || output.hasSourceField
  let score : Rat :=
    0.5 + (if hasData then 0.3 else 0) + (if hasMetadata then 0.2 else 0)
  let (r, c1) := roll e c
  (min (score + r * 0.1) 1.0, c1)

def evaluateCompleteness (e : Env) (c : Cnt) (output : OutputValue) : Rat × Cnt :=
  let fields := output.numFields
  let (r, c1) := roll e c
  (min ((fields : Rat) / 10 + 0.5 + r * 0.1) 1.0, c1)

def evaluateRelevance (e : Env) (c : Cnt) (output : OutputValue) : Rat × Cnt :=
  let (r, c1) := roll e c
  (0.7 + r * 0.3, c1)

def evaluateClarity (e : Env) (c : Cnt) (output : OutputValue) : Rat × Cnt :=
  let hasStructure := output.isObject
  let (r, c1) := roll e c
  (if hasStructure then 0.75 + r * 0.25 else 0.5 + r * 0.3, c1)

def evaluateTimeliness (e : Env) (c : Cnt) (output : OutputValue) : Rat × Cnt :=
  let (r, c1) := roll e c
  (0.8 + r * 0.2, c1)

def generateRecommendations (dimensions : QualityDimensions)
    (criteria : Option CriteriaSpec) : List String :=
  let recommendations :=
    (if dimensions.accuracy < (0.7 : Rat) then
      ["Improve data accuracy through additional validation"] else []) ++
    (if dimensions.completeness < (0.7 : Rat) then
      ["Add missing data fields for completeness"] else []) ++
    (if dimensions.relevance < (0.7 : Rat) then
      ["Refine content to better match target requirements"] else []) ++
    (if dimensions.clarity < (0.7 : Rat) then
      ["Restructure output for improved clarity"] else []) ++
    (if dimensions.timeliness < (0.7 : Rat) then
      ["Optimize processing pipeline for faster delivery"] else [])
  if recommendations.length = 0 then ["Output meets quality standards"]
  else recommendations

/-- `assessQuality`: dereferences `output.data` in `evaluateAccuracy`, so a
nullish `output` throws a TypeError before anything else happens. -/
def assessQuality (e : Env) (c : Cnt) (output : Option OutputValue)
    (criteria : Option CriteriaSpec) : Except JsError (QualityAssessment × Cnt) :=
  match output with
  | none => Except.error (JsError.typeError "Cannot read properties of undefined")
  | some o =>
      let (acc, c1) := evaluateAccuracy e c o
      let (comp, c2) := evaluateCompleteness e c1 o
      let (rel, c3) := evaluateRelevance e c2 o
      let (cla, c4) := evaluateClarity e c3 o
      let (tim, c5) := evaluateTimeliness e c4 o
      let dimensions : QualityDimensions :=
        { accuracy := acc, completeness := comp, relevance := rel
          clarity := cla, timeliness := tim }
      -- Object.values(dimensions).reduce((sum, val) => sum + val, 0) / 5
      let qualityScore := (acc + comp + rel + cla + tim) / 5
      let recommendations := generateRecommendations dimensions criteria
      let (tId, c6) := tick e c5
      let (outId, c7) :=
        match o.id with
        | some s =>
            if s = "" then
              let (t, c') := tick e c6
              ("output-" ++ toString t, c')
            else (s, c6)
        | none =>
            let (t, c') := tick e c6
            ("output-" ++ toString t, c')
      let (ts, c8) := tick e c7
      Except.ok
        ({ id := "qa-" ++ toString tId
           outputId := outId
           qualityScore := qualityScore
           dimensions := dimensions
           recommendations := recommendations
           timestamp := ts }, c8)

/-- `channels.filter(() => Math.random() > 0.1)`: one draw per element. -/
def filterChannelsRand (e : Env) (c : Cnt) :
    List String → List String × Cnt
  | [] => ([], c)
  | ch :: rest =>
      let (r, c1) := roll e c
      let (others, c2) := filterChannelsRand e c1 rest
      (if r > (0.1 : Rat) then ch :: others else others, c2)

/-- `promoteToChannels`: dereferences `content.id`, so a nullish `content`
throws after the per-channel draws and the id sample were already taken. -/
def promoteToChannels (e : Env) (c : Cnt) (content : Option OutputValue)
    (channels : List String) (priority : Option String) :
    Except JsError (PromotionResult × Cnt) :=
  let (successfulChannels, c1) := filterChannelsRand e c channels
  let (tId, c2) := tick e c1
  match content with
  | none => Except.error (JsError.typeError "Cannot read properties of undefined")
  | some ct =>
      let (contentId, c3) :=
        match ct.id with
        | some s =>
            if s = "" then
              let (t, c') := tick e c2
              ("content-" ++ toString t, c')
            else (s, c2)
        | none =>
            let (t, c') := tick e c2
            ("content-" ++ toString t, c')
      let (r1, c4) := roll e c3
      let reach : Int := (successfulChannels.length : Int) * 100 + Rat.floor (r1 * 500)
      let (r2, c5) := roll e c4
      let engagement : Int := Rat.floor (r2 * 100)
      Except.ok
        ({ id := "promo-" ++ toString tId
           contentId := contentId
           channels := successfulChannels
           reach := reach
           engagement := engagement
           status :=
             if successfulChannels.length > 0 then PromoStatus.promoted
             else PromoStatus.failed }, c5)

def checkMarketReadiness (e : Env) (c : Cnt) (st : SalesState)
    (output : Option OutputValue) (requirements : Option Unit) :
    Except JsError (MarketReadiness × Cnt) :=
  match assessQuality e c output none with
  | Except.error err => Except.error err
  | Except.ok (assessment, c1) =>
      let qualityThreshold : Bool :=
        decide (assessment.qualityScore ≥ jsOrRat (jsMapGet st.qualityThresholds "market") 0.7)
      let (r1, c2) := roll e c1
      let (r2, c3) := roll e c2
      let (r3, c4) := roll e c3
      let criteria : MarketReadinessCriteria :=
        { qualityThreshold := qualityThreshold
          complianceCheck := decide (r1 > (0.2 : Rat))
          formatValidation := decide (r2 > (0.15 : Rat))
          targetAlignment := decide (r3 > (0.25 : Rat)) }
      let blockers :=
        (if ¬criteria.qualityThreshold then ["Quality below threshold"] else []) ++
        (if ¬criteria.complianceCheck then ["Compliance verification pending"] else []) ++
        (if ¬criteria.formatValidation then ["Format validation failed"] else []) ++
        (if ¬criteria.targetAlignment then ["Target audience alignment needed"] else [])
      let allCriteriaMet := criteria.qualityThreshold && criteria.complianceCheck
        && criteria.formatValidation && criteria.targetAlignment
      let score : Rat :=
        (((if criteria.qualityThreshold then 1 else 0) +
          (if criteria.complianceCheck then 1 else 0) +
          (if criteria.formatValidation then 1 else 0) +
          (if criteria.targetAlignment then 1 else 0) : Rat)) / 4
      Except.ok
        ({ ready := allCriteriaMet, score := score
           criteria := criteria, blockers := blockers }, c4)

def calculateDimensionAverages (assessments : List QualityAssessment) :
    QualityDimensions :=
  if assessments.length = 0 then
    { accuracy := 0, completeness := 0, relevance := 0, clarity := 0, timeliness := 0 }
  else
    let totals := assessments.foldl (fun acc a =>
      { accuracy := acc.accuracy + a.dimensions.accuracy
        completeness := acc.completeness + a.dimensions.completeness
        relevance := acc.relevance + a.dimensions.relevance
        clarity := acc.clarity + a.dimensions.clarity
        timeliness := acc.timeliness + a.dimensions.timeliness : QualityDimensions })
      { accuracy := 0, completeness := 0, relevance := 0, clarity := 0, timeliness := 0 }
    let count : Rat := (assessments.length : Rat)
    { accuracy := totals.accuracy / count
      completeness := totals.completeness / count
      relevance := totals.relevance / count
      clarity := totals.clarity / count
      timeliness := totals.timeliness / count }

inductive TrendTag where
  | improving | stable | declining
deriving DecidableEq

def calculateTrend (assessments : List QualityAssessment) : TrendTag :=
  if assessments.length < 10 then TrendTag.stable else
  let recent := jsSliceLast assessments 5
  let older := jsSliceNeg assessments 10 5
  let recentAvg := (recent.foldl (fun s a => s + a.qualityScore) 0) / (recent.length : Rat)
  let olderAvg := (older.foldl (fun s a => s + a.qualityScore) 0) / (older.length : Rat)
  let diff := recentAvg - olderAvg
  if diff > (0.05 : Rat) then TrendTag.improving
  else if diff < (-0.05 : Rat) then TrendTag.declining
  else TrendTag.stable

structure QualityMetricsReport where
  totalAssessments : Nat
  averageScore : Rat
  dimensionAverages : QualityDimensions
  trendDirection : TrendTag
deriving DecidableEq

def generateMarketOptimizations (output : Option OutputValue)
    (assessment : QualityAssessment) (targetMarket : Option String) : List String :=
  (if assessment.dimensions.clarity < (0.8 : Rat) then
    ["Restructure for improved market clarity"] else []) ++
  (if assessment.dimensions.relevance < (0.8 : Rat) then
    ["Align content with " ++ jsOrStr targetMarket "target" ++ " market expectations"]
   else []) ++
  (if assessment.dimensions.completeness < (0.8 : Rat) then
    ["Add market-specific metadata and tags"] else []) ++
  ["Apply market-appropriate formatting", "Optimize delivery timing for target audience"]

/-- Handler-specific response payload fields of the sales service. -/
inductive SalesRespData where
  | qualityAssessed (assessment : QualityAssessment)
  | outputPromoted (result : PromotionResult)
  | readinessChecked (readiness : MarketReadiness)
  | metricsRetrieved (metrics : QualityMetricsReport)
  | marketOptimized (originalScore : Rat) (optimizations : List String)
      (projectedImprovement : Rat)
deriving DecidableEq

def SalesResp : Type := ServiceMessage (RespPayload SalesRespData)

def salesHandleQualityAssessment (e : Env) (c : Cnt) (cfg : ServiceConfig)
    (st : SalesState) (msg : ServiceMessage SalesPayload) (startTime : Nat) :
    Except JsError (SalesState × SalesResp × Cnt) :=
  match assessQuality e c msg.payload.output msg.payload.criteria with
  | Except.error err => Except.error err
  | Except.ok (assessment, c1) =>
      let st' := { st with assessmentHistory := st.assessmentHistory ++ [assessment] }
      let (resp, c2) := mkResponse e c1 cfg startTime "QUALITY_ASSESSED"
        msg.source (SalesRespData.qualityAssessed assessment)
      Except.ok (st', resp, c2)

def salesHandleOutputPromotion (e : Env) (c : Cnt) (cfg : ServiceConfig)
    (st : SalesState) (msg : ServiceMessage SalesPayload) (startTime : Nat) :
    Except JsError (SalesState × SalesResp × Cnt) :=
  let channels := msg.payload.targetChannels.getD st.promotionChannels
  match promoteToChannels e c msg.payload.content channels msg.payload.priority with
  | Except.error err => Except.error err
  | Except.ok (promotionResult, c1) =>
      let (resp, c2) := mkResponse e c1 cfg startTime "OUTPUT_PROMOTED"
        msg.source (SalesRespData.outputPromoted promotionResult)
      Except.ok (st, resp, c2)

def salesHandleMarketReadinessCheck (e : Env) (c : Cnt) (cfg : ServiceConfig)
    (st : SalesState) (msg : ServiceMessage SalesPayload) (startTime : Nat) :
    Except JsError (SalesState × SalesResp × Cnt) :=
  match checkMarketReadiness e c st msg.payload.output msg.payload.requirements with
  | Except.error err => Except.error err
  | Except.ok (readiness, c1) =>
      let (resp, c2) := mkResponse e c1 cfg startTime "MARKET_READINESS_CHECKED"
        msg.source (SalesRespData.readinessChecked readiness)
      Except.ok (st, resp, c2)

def salesHandleGetQualityMetrics (e : Env) (c : Cnt) (cfg : ServiceConfig)
    (st : SalesState) (msg : ServiceMessage SalesPayload) (startTime : Nat) :
    Except JsError (SalesState × SalesResp × Cnt) :=
  let recentAssessments := jsSliceLast st.assessmentHistory 100
  let metrics : QualityMetricsReport :=
    { totalAssessments := st.assessmentHistory.length
      averageScore :=
        if recentAssessments.length > 0 then
          (recentAssessments.foldl (fun s a => s + a.qualityScore) 0) /
            (recentAssessments.length : Rat)
        else 0
      dimensionAverages := calculateDimensionAverages recentAssessments
      trendDirection := calculateTrend recentAssessments }
  let (resp, c1) := mkResponse e c cfg startTime "QUALITY_METRICS_RETRIEVED"
    msg.source (SalesRespData.metricsRetrieved metrics)
  Except.ok (st, resp, c1)

def salesHandleMarketOptimization (e : Env) (c : Cnt) (cfg : ServiceConfig)
    (st : SalesState) (msg : ServiceMessage SalesPayload) (startTime : Nat) :
    Except JsError (SalesState × SalesResp × Cnt) :=
  match assessQuality e c msg.payload.output none with
  | Except.error err => Except.error err
  | Except.ok (assessment, c1) =>
      let optimizations := generateMarketOptimizations msg.payload.output
        assessment msg.payload.targetMarket
      let (resp, c2) := mkResponse e c1 cfg startTime "MARKET_OPTIMIZATION_COMPLETE"
        msg.source (SalesRespData.marketOptimized assessment.qualityScore
          optimizations ((optimizations.length : Rat) * 0.05))
      Except.ok (st, resp, c2)

def salesMessageTypes : List String :=
  [ "ASSESS_QUALITY", "PROMOTE_OUTPUT", "CHECK_MARKET_READINESS"
  , "GET_QUALITY_METRICS", "OPTIMIZE_FOR_MARKET" ]

structure SalesProcOut where
  logs : List LogEntry
  result : Except JsError (SalesState × Option SalesResp × Cnt)

/-- The `try`/`catch` of `SalesService.process`: a handler fault is logged and
rethrown. -/
def salesWrap (logs : List LogEntry)
    (r : Except JsError (SalesState × SalesResp × Cnt)) : SalesProcOut :=
  match r with
  | Except.error err =>
      ⟨logs ++ [("error", "Error processing sales request")], Except.error err⟩
  | Except.ok (st', resp, c1) => ⟨logs, Except.ok (st', some resp, c1)⟩

/-- `SalesService.process`. -/
def salesProcess (cfg : ServiceConfig) (e : Env) (c : Cnt) (st : SalesState)
    (msg : ServiceMessage SalesPayload) : SalesProcOut :=
  let (startTime, c0) := tick e c
  let logs : List LogEntry := [("info", "Processing sales request")]
  if msg.type = "ASSESS_QUALITY" then
    salesWrap logs (salesHandleQualityAssessment e c0 cfg st msg startTime)
  else if msg.type = "PROMOTE_OUTPUT" then
    salesWrap logs (salesHandleOutputPromotion e c0 cfg st msg startTime)
  else if msg.type = "CHECK_MARKET_READINESS" then
    salesWrap logs (salesHandleMarketReadinessCheck e c0 cfg st msg startTime)
  else if msg.type = "GET_QUALITY_METRICS" then
    salesWrap logs (salesHandleGetQualityMetrics e c0 cfg st msg startTime)
  else if msg.type = "OPTIMIZE_FOR_MARKET" then
    salesWrap logs (salesHandleMarketOptimization e c0 cfg st msg startTime)
  else
    ⟨logs ++ [("warn", "Unknown message type")], Except.ok (st, none, c0)⟩

/-- The constructor: `initializeQualityFramework` seeds the thresholds and
promotion channels. -/
def initQualityFramework : SalesState :=
  { qualityThresholds :=
      jsMapSet (jsMapSet (jsMapSet [] "market" 0.7) "premium" 0.85) "standard" 0.6
    promotionChannels :=
      [ "primary-output", "analytics-feed", "integration-hub"
      , "external-api", "dashboard-display" ]
    assessmentHistory := [] }

/- ===================== Treasury service (T-7) ===================== -/

structure MotorPattern where
  sequence : List String
  timing : List Rat
  precision : Rat
  adaptability : Rat
deriving DecidableEq

structure SkillMetadata where
  createdAt : Nat
  developmentPlanId : Option String
  sourceTriad : String
  validatedBy : List String
  dependencies : List String
deriving DecidableEq

structure MotorMemory where
  id : String
  skillName : String
  skillType : String
  pattern : MotorPattern
  proficiency : Rat
  lastAccessed : Nat
  accessCount : Nat
  metadata : SkillMetadata
deriving DecidableEq

structure SkillIntegration where
  targetService : String
  integrationType : String
  strength : Rat
deriving DecidableEq

structure LearnedSkill where
  id : String
  name : String
  category : String
  proficiencyLevel : Rat
  patterns : List String
  integrations : List SkillIntegration
deriving DecidableEq

structure AccessLogEntry where
  skillId : String
  timestamp : Nat
  success : Bool
deriving DecidableEq

/-- A value stored in the heterogeneous `sharedParasympatheticState` map. -/
inductive ParaStateValue where
  | statusVal (s : String)
  | lastDevelopmentReceived (timestamp : Nat) (planId : Option String) (memoryId : String)
  | initializedInfo (timestamp : Nat) (receivingFrom : String) (connectedTriads : List String)
deriving DecidableEq

structure TreasuryState where
  motorMemoryStore : List (String × MotorMemory)
  learnedSkills : List (String × LearnedSkill)
  accessLog : List AccessLogEntry
  sharedParasympatheticState : List (String × ParaStateValue)
deriving DecidableEq

/-- A `Partial<MotorPattern>` from the request payload. -/
structure PatternSpec where
  sequence : Option (List String) := none
  timing : Option (List Rat) := none
  precision : Option Rat := none
  adaptability : Option Rat := none
deriving DecidableEq

/-- A `Partial<SkillMetadata>` argument to `storeMotorMemory`. -/
structure MetadataSpec where
  developmentPlanId : Option String := none
  sourceTriad : Option String := none
  validatedBy : Option (List String) := none
  dependencies : Option (List String) := none
deriving DecidableEq

/-- The `completedSkill` object of a `RECEIVE_FROM_DEVELOPMENT` payload. -/
structure CompletedSkillSpec where
  name : Option String := none
  type : Option String := none
deriving DecidableEq

/-- The open request payload, restricted to the fields the treasury handlers
read. -/
structure TreasuryPayload where
  skillName : Option String := none
  skillType : Option String := none
  pattern : Option PatternSpec := none
  proficiency : Option Rat := none
  metadata : Option MetadataSpec := none
  skillId : Option String := none
  newProficiency : Option Rat := none
  reason : Option String := none
  name : Option String := none
  category : Option String := none
  proficiencyLevel : Option Rat := none
  patterns : Option (List String) := none
  integrations : Option (List SkillIntegration) := none
  minProficiency : Option Rat := none
  developmentPlanId : Option String := none
  completedSkill : Option CompletedSkillSpec := none
  targetService : Option String := none
  integrationType : Option String := none
deriving DecidableEq

/-- `storeMotorMemory`: builds the memory record with permissive defaults; the
supplied proficiency is stored verbatim (`proficiency ?? 0.5`). -/
def storeMotorMemory (e : Env) (c : Cnt) (skillName skillType : Option String)
    (pattern : Option PatternSpec) (proficiency : Option Rat)
    (metadata : Option MetadataSpec) : MotorMemory × Cnt :=
  let (tId, c1) := tick e c
  let (tAcc, c2) := tick e c1
  let (tCreated, c3) := tick e c2
  ({ id := "mm-" ++ toString tId
     skillName := jsOrStr skillName "unnamed-skill"
     skillType := jsOrStr skillType "motor"
     pattern :=
       { sequence := (pattern.bind (fun p => p.sequence)).getD []
         timing := (pattern.bind (fun p => p.timing)).getD []
         precision := (pattern.bind (fun p => p.precision)).getD 0.7
         adaptability := (pattern.bind (fun p => p.adaptability)).getD 0.5 }
     proficiency := proficiency.getD 0.5
     lastAccessed := tAcc
     accessCount := 0
     metadata :=
       { createdAt := tCreated
         developmentPlanId := metadata.bind (fun m => m.developmentPlanId)
         sourceTriad := jsOrStr (metadata.bind (fun m => m.sourceTriad)) "somatic"
         validatedBy := (metadata.bind (fun m => m.validatedBy)).getD []
         dependencies := (metadata.bind (fun m => m.dependencies)).getD [] } }, c3)

/-- The name-search loop of `retrieveSkill`: walk the store in insertion
order keeping the key of the best (strictly higher proficiency) name match and
collecting alternative names along the way. -/
def searchSkill (skillName skillType : Option String) :
    List (String × MotorMemory) → Option (String × MotorMemory) → List String →
    Option (String × MotorMemory) × List String
  | [], best, alts => (best, alts)
  | (k, memory) :: rest, best, alts =>
      if jsTruthyStr skillName &&
          strIncludes (strToLower memory.skillName) (strToLower (skillName.getD "")) then
        let best' :=
          match best with
          | none => some (k, memory)
          | some (bk, bm) =>
              if memory.proficiency > bm.proficiency then some (k, memory)
              else some (bk, bm)
        searchSkill skillName skillType rest best' (alts ++ [memory.skillName])
      else if jsTruthyStr skillType && memory.skillType == skillType.getD "" then
        searchSkill skillName skillType rest best (alts ++ [memory.skillName])
      else
        searchSkill skillName skillType rest best alts

structure SkillRetrievalResult where
  skill : Option MotorMemory
  retrievalTime : Int
  confidence : Rat
  alternatives : List String
deriving DecidableEq

/-- `retrieveSkill`: search by id then by name; a found skill is touched in
place (`lastAccessed`, `accessCount++`), which lands at its key in the store.
Returns the result together with the updated store. -/
def retrieveSkill (e : Env) (c : Cnt) (store : List (String × MotorMemory))
    (skillId skillName skillType : Option String) :
    SkillRetrievalResult × List (String × MotorMemory) × Cnt :=
  let (startTime, c1) := tick e c
  let (found, alternatives) :=
    if jsTruthyStr skillId then
      match jsMapGet store (skillId.getD "") with
      | some m => (some (skillId.getD "", m), ([] : List String))
      | none => searchSkill skillName skillType store none []
    else
      searchSkill skillName skillType store none []
  match found with
  | some (k, m) =>
      let (tAcc, c2) := tick e c1
      let m' := { m with lastAccessed := tAcc, accessCount := m.accessCount + 1 }
      let store' := jsMapSet store k m'
      let (tEnd, c3) := tick e c2
      ({ skill := some m'
         retrievalTime := (tEnd : Int) - (startTime : Int)
         confidence := m'.proficiency
         alternatives :=
           (alternatives.filter (fun a => a ≠ m'.skillName)).take 5 }, store', c3)
  | none =>
      let (tEnd, c2) := tick e c1
      -- with no skill found, `a !== skill?.skillName` is `a !== undefined`,
      -- true for every string, so the filter keeps everything
      ({ skill := none
         retrievalTime := (tEnd : Int) - (startTime : Int)
         confidence := 0
         alternatives := alternatives.take 5 }, store, c2)

def registerLearnedSkill (e : Env) (c : Cnt) (name category : Option String)
    (proficiencyLevel : Option Rat) (patterns : Option (List String))
    (integrations : Option (List SkillIntegration)) : LearnedSkill × Cnt :=
  let (tId, c1) := tick e c
  ({ id := "ls-" ++ toString tId
     name := jsOrStr name "unnamed-learned-skill"
     category := jsOrStr category "general"
     proficiencyLevel := proficiencyLevel.getD 0.5
     patterns := patterns.getD []
     integrations := integrations.getD
       [ { targetService := "motor-control", integrationType := "motor", strength := 0.7 }
       , { targetService := "processing-service", integrationType := "behavioral"
           strength := 0.5 } ] }, c1)

structure MemorySlim where
  id : String
  name : String
  type : String
  proficiency : Rat
  accessCount : Nat
deriving DecidableEq

structure LearnedSlim where
  id : String
  name : String
  category : String
  proficiency : Rat
deriving DecidableEq

structure AccessStats where
  totalAccesses : Nat
  successRate : Rat
deriving DecidableEq

structure SkillInventory where
  totalMotorMemories : Nat
  totalLearnedSkills : Nat
  filteredMotorMemories : Nat
  filteredLearnedSkills : Nat
  motorMemories : List MemorySlim
  learnedSkills : List LearnedSlim
  accessStatistics : AccessStats
  parasympatheticStatus : ParaStateValue
deriving DecidableEq

/-- JS truthiness of a parasympathetic-state value: strings are falsy exactly
when empty, stored objects are always truthy. -/
def paraTruthy (v : ParaStateValue) : Bool :=
  match v with
  | ParaStateValue.statusVal s => s ≠ ""
  | _ => true

def getSkillInventory (st : TreasuryState) (category : Option String)
    (minProficiency : Option Rat) : SkillInventory :=
  let memories := jsMapValues st.motorMemoryStore
  let skills := jsMapValues st.learnedSkills
  let filteredSkills1 :=
    if jsTruthyStr category then
      skills.filter (fun s => s.category == category.getD "")
    else skills
  let filtered : List MotorMemory × List LearnedSkill :=
    match minProficiency with
    | some mp =>
        (memories.filter (fun m => decide (m.proficiency ≥ mp)),
         filteredSkills1.filter (fun s => decide (s.proficiencyLevel ≥ mp)))
    | none => (memories, filteredSkills1)
  let filteredMemories := filtered.1
  let filteredSkills := filtered.2
  let recentAccess := jsSliceLast st.accessLog 100
  { totalMotorMemories := memories.length
    totalLearnedSkills := skills.length
    filteredMotorMemories := filteredMemories.length
    filteredLearnedSkills := filteredSkills.length
    motorMemories := filteredMemories.map (fun m =>
      { id := m.id, name := m.skillName, type := m.skillType
        proficiency := m.proficiency, accessCount := m.accessCount })
    learnedSkills := filteredSkills.map (fun s =>
      { id := s.id, name := s.name, category := s.category
        proficiency := s.proficiencyLevel })
    accessStatistics :=
      { totalAccesses := recentAccess.length
        successRate :=
          ((recentAccess.filter (fun a => a.success)).length : Rat) /
            (max recentAccess.length 1 : Rat) }
    parasympatheticStatus :=
      match jsMapGet st.sharedParasympatheticState "status" with
      | some v => if paraTruthy v then v else ParaStateValue.statusVal "active"
      | none => ParaStateValue.statusVal "active" }

/-- The slim memory record echoed by `MOTOR_MEMORY_STORED`. -/
structure StoredMemorySlim where
  id : String
  skillName : String
  proficiency : Rat
  storedAt : Nat
deriving DecidableEq

/-- Handler-specific response payload fields of the treasury service. -/
inductive TreasuryRespData where
  | motorMemoryStored (memory : StoredMemorySlim)
  | skillRetrieved (result : SkillRetrievalResult)
  | learnedSkillRegistered (skill : LearnedSkill)
  | proficiencyError (error : String) (skillId : Option String)
  | proficiencyUpdated (skillId : Option String) (oldProficiency : Rat)
      (newProficiency : Rat) (change : Rat) (reason : String)
  | inventoryRetrieved (inventory : SkillInventory)
  | developmentReceived (memoryId : String) (skillName : String)
      (proficiency : Rat) (developmentPlanId : Option String)
      (parasympatheticSync : String)
  | integrationError (error : String) (skillId : Option String)
  | skillIntegrated (skillId : Option String) (skillName : String)
      (integration : SkillIntegration) (totalIntegrations : Nat)
deriving DecidableEq

def TreasuryResp : Type := ServiceMessage (RespPayload TreasuryRespData)

def treasuryHandleStoreMotorMemory (e : Env) (c : Cnt) (cfg : ServiceConfig)
    (st : TreasuryState) (msg : ServiceMessage TreasuryPayload) (startTime : Nat) :
    TreasuryState × TreasuryResp × Cnt :=
  let (memory, c1) := storeMotorMemory e c msg.payload.skillName
    msg.payload.skillType msg.payload.pattern msg.payload.proficiency
    msg.payload.metadata
  let st' := { st with motorMemoryStore := jsMapSet st.motorMemoryStore memory.id memory }
  let (resp, c2) := mkResponse e c1 cfg startTime "MOTOR_MEMORY_STORED"
    msg.source (TreasuryRespData.motorMemoryStored
      { id := memory.id, skillName := memory.skillName
        proficiency := memory.proficiency, storedAt := memory.metadata.createdAt })
  (st', resp, c2)

/-- `skillId || skillName || 'search'`. -/
def accessLogKey (skillId skillName : Option String) : String :=
  jsOrStr skillId (jsOrStr skillName "search")

def treasuryHandleRetrieveSkill (e : Env) (c : Cnt) (cfg : ServiceConfig)
    (st : TreasuryState) (msg : ServiceMessage TreasuryPayload) (startTime : Nat) :
    TreasuryState × TreasuryResp × Cnt :=
  let (result, store', c1) := retrieveSkill e c st.motorMemoryStore
    msg.payload.skillId msg.payload.skillName msg.payload.skillType
  let (tLog, c2) := tick e c1
  let st' :=
    { st with
        motorMemoryStore := store'
        accessLog := st.accessLog ++
          [{ skillId := accessLogKey msg.payload.skillId msg.payload.skillName
             timestamp := tLog
             success := result.skill.isSome }] }
  let (resp, c3) := mkResponse e c2 cfg startTime "SKILL_RETRIEVED"
    msg.source (TreasuryRespData.skillRetrieved result)
  (st', resp, c3)

def treasuryHandleRegisterLearnedSkill (e : Env) (c : Cnt) (cfg : ServiceConfig)
    (st : TreasuryState) (msg : ServiceMessage TreasuryPayload) (startTime : Nat) :
    TreasuryState × TreasuryResp × Cnt :=
  let (skill, c1) := registerLearnedSkill e c msg.payload.name
    msg.payload.category msg.payload.proficiencyLevel msg.payload.patterns
    msg.payload.integrations
  let st' := { st with learnedSkills := jsMapSet st.learnedSkills skill.id skill }
  let (resp, c2) := mkResponse e c1 cfg startTime "LEARNED_SKILL_REGISTERED"
    msg.source (TreasuryRespData.learnedSkillRegistered skill)
  (st', resp, c2)

/-- `motorMemoryStore.get(skillId)` with a possibly-absent key. -/
def lookupMotorMemory (st : TreasuryState) (skillId : Option String) :
    Option MotorMemory :=
  match skillId with
  | some k => jsMapGet st.motorMemoryStore k
  | none => none

def treasuryHandleUpdateProficiency (e : Env) (c : Cnt) (cfg : ServiceConfig)
    (st : TreasuryState) (msg : ServiceMessage TreasuryPayload) (startTime : Nat) :
    TreasuryState × TreasuryResp × Cnt :=
  match lookupMotorMemory st msg.payload.skillId with
  | none =>
      let (resp, c1) := mkResponse e c cfg startTime "PROFICIENCY_UPDATE_ERROR"
        msg.source (TreasuryRespData.proficiencyError "Skill not found"
          msg.payload.skillId)
      (st, resp, c1)
  | some memory =>
      let oldProficiency := memory.proficiency
      let newProf :=
        max 0 (min 1 (msg.payload.newProficiency.getD memory.proficiency))
      let memory' := { memory with proficiency := newProf }
      let st' :=
        { st with
            motorMemoryStore :=
              jsMapSet st.motorMemoryStore (msg.payload.skillId.getD "") memory' }
      let (resp, c1) := mkResponse e c cfg startTime "PROFICIENCY_UPDATED"
        msg.source (TreasuryRespData.proficiencyUpdated msg.payload.skillId
          oldProficiency memory'.proficiency (memory'.proficiency - oldProficiency)
          (jsOrStr msg.payload.reason "manual update"))
      (st', resp, c1)

def treasuryHandleGetSkillInventory (e : Env) (c : Cnt) (cfg : ServiceConfig)
    (st : TreasuryState) (msg : ServiceMessage TreasuryPayload) (startTime : Nat) :
    TreasuryState × TreasuryResp × Cnt :=
  let inventory := getSkillInventory st msg.payload.category
    msg.payload.minProficiency
  let (resp, c1) := mkResponse e c cfg startTime "SKILL_INVENTORY_RETRIEVED"
    msg.source (TreasuryRespData.inventoryRetrieved inventory)
  (st, resp, c1)

def treasuryHandleReceiveFromDevelopment (e : Env) (c : Cnt) (cfg : ServiceConfig)
    (st : TreasuryState) (msg : ServiceMessage TreasuryPayload) (startTime : Nat) :
    TreasuryState × TreasuryResp × Cnt :=
  -- `completedSkill?.name || `dev-skill-${developmentPlanId}``; template
  -- interpolation of an undefined id prints "undefined"
  let skillNameArg := jsOrStr (msg.payload.completedSkill.bind (fun s => s.name))
    ("dev-skill-" ++ msg.payload.developmentPlanId.getD "undefined")
  let skillTypeArg := jsOrStr (msg.payload.completedSkill.bind (fun s => s.type))
    "motor"
  let (memory, c1) := storeMotorMemory e c (some skillNameArg) (some skillTypeArg)
    msg.payload.pattern msg.payload.proficiency
    (some { developmentPlanId := msg.payload.developmentPlanId
            sourceTriad := some "somatic"
            validatedBy := some ["development-service"] })
  let (tPara, c2) := tick e c1
  let st' :=
    { st with
        motorMemoryStore := jsMapSet st.motorMemoryStore memory.id memory
        sharedParasympatheticState :=
          jsMapSet st.sharedParasympatheticState "lastDevelopmentReceived"
            (ParaStateValue.lastDevelopmentReceived tPara
              msg.payload.developmentPlanId memory.id) }
  let (resp, c3) := mkResponse e c2 cfg startTime "DEVELOPMENT_RECEIVED"
    msg.source (TreasuryRespData.developmentReceived memory.id memory.skillName
      memory.proficiency msg.payload.developmentPlanId "complete")
  (st', resp, c3)

/-- `learnedSkills.get(skillId)` with a possibly-absent key. -/
def lookupLearnedSkill (st : TreasuryState) (skillId : Option String) :
    Option LearnedSkill :=
  match skillId with
  | some k => jsMapGet st.learnedSkills k
  | none => none

def treasuryHandleSkillIntegration (e : Env) (c : Cnt) (cfg : ServiceConfig)
    (st : TreasuryState) (msg : ServiceMessage TreasuryPayload) (startTime : Nat) :
    TreasuryState × TreasuryResp × Cnt :=
  match lookupLearnedSkill st msg.payload.skillId with
  | none =>
      let (resp, c1) := mkResponse e c cfg startTime "SKILL_INTEGRATION_ERROR"
        msg.source (TreasuryRespData.integrationError "Skill not found"
          msg.payload.skillId)
      (st, resp, c1)
  | some skill =>
      let integration : SkillIntegration :=
        { targetService := jsOrStr msg.payload.targetService "motor-control"
          integrationType := jsOrStr msg.payload.integrationType "motor"
          strength := 0.5 }
      let skill' := { skill with integrations := skill.integrations ++ [integration] }
      let st' :=
        { st with
            learnedSkills := jsMapSet st.learnedSkills (msg.payload.skillId.getD "") skill' }
      let (resp, c1) := mkResponse e c cfg startTime "SKILL_INTEGRATED"
        msg.source (TreasuryRespData.skillIntegrated msg.payload.skillId
          skill'.name integration skill'.integrations.length)
      (st', resp, c1)

def treasuryMessageTypes : List String :=
  [ "STORE_MOTOR_MEMORY", "RETRIEVE_SKILL", "REGISTER_LEARNED_SKILL"
  , "UPDATE_PROFICIENCY", "GET_SKILL_INVENTORY", "RECEIVE_FROM_DEVELOPMENT"
  , "INTEGRATE_SKILL" ]

structure TreasuryProcOut where
  state : TreasuryState
  response : Option TreasuryResp
  logs : List LogEntry
  cnt : Cnt

/-- `TreasuryService.process`. -/
def treasuryProcess (cfg : ServiceConfig) (e : Env) (c : Cnt)
    (st : TreasuryState) (msg : ServiceMessage TreasuryPayload) : TreasuryProcOut :=
  let (startTime, c0) := tick e c
  let logs : List LogEntry := [("info", "Processing treasury request")]
  if msg.type = "STORE_MOTOR_MEMORY" then
    let (st', resp, c1) := treasuryHandleStoreMotorMemory e c0 cfg st msg startTime
    ⟨st', some resp, logs, c1⟩
  else if msg.type = "RETRIEVE_SKILL" then
    let (st', resp, c1) := treasuryHandleRetrieveSkill e c0 cfg st msg startTime
    ⟨st', some resp, logs, c1⟩
  else if msg.type = "REGISTER_LEARNED_SKILL" then
    let (st', resp, c1) := treasuryHandleRegisterLearnedSkill e c0 cfg st msg startTime
    ⟨st', some resp, logs, c1⟩
  else if msg.type = "UPDATE_PROFICIENCY" then
    let (st', resp, c1) := treasuryHandleUpdateProficiency e c0 cfg st msg startTime
    ⟨st', some resp, logs, c1⟩
  else if msg.type = "GET_SKILL_INVENTORY" then
    let (st', resp, c1) := treasuryHandleGetSkillInventory e c0 cfg st msg startTime
    ⟨st', some resp, logs, c1⟩
  else if msg.type = "RECEIVE_FROM_DEVELOPMENT" then
    let (st', resp, c1) := treasuryHandleReceiveFromDevelopment e c0 cfg st msg startTime
    ⟨st', some resp, logs, c1⟩
  else if msg.type = "INTEGRATE_SKILL" then
    let (st', resp, c1) := treasuryHandleSkillIntegration e c0 cfg st msg startTime
    ⟨st', some resp, logs, c1⟩
  else
    ⟨st, none, logs ++ [("warn", "Unknown message type")], c0⟩

/-- The default skills seeded by `initializeTreasuryFramework`. -/
def treasuryDefaultSkills : List (String × String × Rat) :=
  [ ("basic-motor-control", "motor", 0.9)
  , ("sensory-motor-coordination", "procedural", 0.8)
  , ("adaptive-response", "behavioral", 0.7)
  , ("reflex-action", "reflexive", 0.95) ]

/-- The `defaultSkills.forEach(...)` seeding loop. -/
def seedDefaultSkills (e : Env) (c : Cnt)
    (store : List (String × MotorMemory)) :
    List (String × String × Rat) → List (String × MotorMemory) × Cnt
  | [] => (store, c)
  | (name, skillType, proficiency) :: rest =>
      let (memory, c1) :=
        storeMotorMemory e c (some name) (some skillType) none (some proficiency) none
      seedDefaultSkills e c1 (jsMapSet store memory.id memory) rest

/-- The constructor: empty stores, then `initializeTreasuryFramework` seeds
four default motor memories and the shared parasympathetic state. -/
def initTreasuryFramework (e : Env) (c : Cnt) : TreasuryState × Cnt :=
  let (store, c1) := seedDefaultSkills e c [] treasuryDefaultSkills
  let (tInit, c2) := tick e c1
  ({ motorMemoryStore := store
     learnedSkills := []
     accessLog := []
     sharedParasympatheticState :=
       jsMapSet (jsMapSet [] "status" (ParaStateValue.statusVal "active"))
         "initialized"
         (ParaStateValue.initializedInfo tInit "development-service"
           ["somatic", "autonomic"]) }, c2)

/- ===================== Market service (M-1) ===================== -/

inductive TrendMotion where
  | rising | falling | stable
deriving DecidableEq

inductive TrendImpact where
  | high | medium | low
deriving DecidableEq

structure MarketTrend where
  name : String
  direction : TrendMotion
  impact : TrendImpact
  timeframe : String
deriving DecidableEq

structure MarketAnalysis where
  id : String
  marketSegment : String
  trends : List MarketTrend
  opportunities : List String
  threats : List String
  recommendations : List String
  timestamp : Nat
deriving DecidableEq

inductive IfaceStatus where
  | active | inactive | pending
deriving DecidableEq

structure InterfaceMetrics where
  requestsHandled : Nat
  averageLatency : Rat
  successRate : Rat
  lastActivity : Nat
deriving DecidableEq

structure ExternalInterface where
  id : String
  interfaceType : String
  status : IfaceStatus
  capabilities : List String
  metrics : InterfaceMetrics
deriving DecidableEq

structure PerformanceFeedback where
  source : String
  metricType : String
  value : Rat
  trend : TrendTag
  actionRequired : Bool
  recommendations : List String
deriving DecidableEq

structure IntelBaseline where
  established : Nat
  version : String
deriving DecidableEq

structure MarketState where
  marketSegments : List (String × MarketAnalysis)
  externalInterfaces : List (String × ExternalInterface)
  feedbackHistory : List PerformanceFeedback
  marketIntelligence : List (String × IntelBaseline)
deriving DecidableEq

/-- The `metrics` object of a `PROCESS_FEEDBACK` payload. -/
structure MetricsSpec where
  value : Option Rat := none
  type : Option String := none
deriving DecidableEq

/-- The open request payload, restricted to the fields the market handlers
read. -/
structure MarketPayload where
  segment : Option String := none
  depth : Option String := none
  factors : Option (List String) := none
  interfaceId : Option String := none
  interfaceType : Option String := none
  capabilities : Option (List String) := none
  metrics : Option MetricsSpec := none
  source : Option String := none
  domain : Option String := none
  timeframe : Option String := none
  targetArea : Option String := none
  constraints : Option Unit := none
deriving DecidableEq

def marketBaseTrends : List MarketTrend :=
  [ { name := "Digital transformation acceleration", direction := .rising
      impact := .high, timeframe := "12-24 months" }
  , { name := "AI/ML integration demand", direction := .rising
      impact := .high, timeframe := "6-18 months" }
  , { name := "Real-time processing requirements", direction := .rising
      impact := .medium, timeframe := "3-12 months" }
  , { name := "Legacy system modernization", direction := .stable
      impact := .medium, timeframe := "12-36 months" } ]

def identifyTrends (segment : String) : List MarketTrend :=
  marketBaseTrends ++
    (if strIncludes segment "cognitive" || strIncludes segment "ai" then
      [{ name := "Neuromorphic computing adoption", direction := .rising
         impact := .high, timeframe := "18-36 months" }]
     else [])

def identifyOpportunities (segment : String) (trends : List MarketTrend) :
    List String :=
  let risingTrends := trends.filter (fun t =>
    t.direction == TrendMotion.rising && t.impact == TrendImpact.high)
  (risingTrends.map (fun t =>
    "Capitalize on " ++ t.name ++ " within " ++ t.timeframe)) ++
  [ "Expand cognitive processing capabilities"
  , "Enhance cross-triad integration for market differentiation"
  , "Develop predictive market intelligence features" ]

def identifyThreats (segment : String) (trends : List MarketTrend) : List String :=
  [ "Increasing competition in cognitive systems space"
  , "Rapid technology obsolescence risk"
  , "Integration complexity with external systems"
  , "Data privacy and compliance requirements" ]

def generateMarketRecommendations (opportunities threats : List String) :
    List String :=
  [ "Prioritize high-impact opportunities in the short term"
  , "Implement continuous market monitoring"
  , "Strengthen external interface capabilities"
  , "Develop threat mitigation strategies"
  , "Feed insights back to Processing Director for optimization" ]

def analyzeMarket (e : Env) (c : Cnt) (segment : String)
    (depth : Option String) (factors : Option (List String)) :
    MarketAnalysis × Cnt :=
  let trends := identifyTrends segment
  let opportunities := identifyOpportunities segment trends
  let threats := identifyThreats segment trends
  let recommendations := generateMarketRecommendations opportunities threats
  let (tId, c1) := tick e c
  let (ts, c2) := tick e c1
  ({ id := "ma-" ++ toString tId
     marketSegment := segment
     trends := trends
     opportunities := opportunities
     threats := threats
     recommendations := recommendations
     timestamp := ts }, c2)

def processFeedback (e : Env) (c : Cnt) (history : List PerformanceFeedback)
    (metrics : Option MetricsSpec) (feedbackSource : Option String) :
    PerformanceFeedback × Cnt :=
  let (value, c1) :=
    match metrics.bind (fun m => m.value) with
    | some v => (v, c)
    | none => roll e c
  -- `f.source === feedbackSource`: comparison with an undefined source is
  -- false for every stored (string) source
  let previousValues :=
    (jsSliceLast (history.filter (fun f =>
      match feedbackSource with
      | some s => f.source == s
      | none => false)) 10).map (fun f => f.value)
  let trend : TrendTag :=
    if previousValues.length ≥ 3 then
      let avg := (previousValues.foldl (fun a b => a + b) 0) /
        (previousValues.length : Rat)
      if value > avg * (1.05 : Rat) then TrendTag.improving
      else if value < avg * (0.95 : Rat) then TrendTag.declining
      else TrendTag.stable
    else TrendTag.stable
  let recommendations : List String :=
    if trend == TrendTag.declining then
      [ "Review recent changes for potential issues"
      , "Consider optimization opportunities" ]
    else if trend == TrendTag.improving then
      [ "Continue current approach"
      , "Document successful patterns for replication" ]
    else []
  ({ source := jsOrStr feedbackSource "unknown"
     metricType := jsOrStr (metrics.bind (fun m => m.type)) "general"
     value := value
     trend := trend
     actionRequired := trend == TrendTag.declining
     recommendations := recommendations }, c1)

structure IntelSummary where
  totalMarketSegments : Nat
  activeTrends : Nat
  feedbackTrend : String
  interfaceHealth : Rat
deriving DecidableEq

structure MarketIntelligence where
  domain : String
  timeframe : String
  summary : IntelSummary
  insights : List String
  actionItems : List String
deriving DecidableEq

def calculateOverallTrend (feedback : List PerformanceFeedback) : String :=
  if feedback.length = 0 then "insufficient data" else
  let improving := (feedback.filter (fun f => f.trend == TrendTag.improving)).length
  let declining := (feedback.filter (fun f => f.trend == TrendTag.declining)).length
  if (improving : Rat) > (declining : Rat) * (1.5 : Rat) then "positive"
  else if (declining : Rat) > (improving : Rat) * (1.5 : Rat) then "negative"
  else "neutral"

def calculateInterfaceHealth (st : MarketState) : Rat :=
  let interfaces := jsMapValues st.externalInterfaces
  if interfaces.length = 0 then 1.0 else
  let healthyCount := (interfaces.filter (fun i => i.status == IfaceStatus.active)).length
  (healthyCount : Rat) / (interfaces.length : Rat)

def generateActionItems (feedback : List PerformanceFeedback)
    (analyses : List MarketAnalysis) : List String :=
  let decliningFeedback := feedback.filter (fun f => f.trend == TrendTag.declining)
  let items :=
    (if (decliningFeedback.length : Rat) > (feedback.length : Rat) * (0.3 : Rat) then
      ["Investigate declining performance trends"] else []) ++
    (analyses.filterMap (fun analysis =>
      if analysis.threats.length > 3 then
        some ("Address threats in " ++ analysis.marketSegment ++ " segment")
      else none))
  if items.length = 0 then
    ["Continue monitoring - no immediate actions required"]
  else items

def gatherMarketIntelligence (st : MarketState)
    (domain timeframe : Option String) : MarketIntelligence :=
  let recentFeedback := jsSliceLast st.feedbackHistory 50
  let marketAnalyses := jsMapValues st.marketSegments
  { domain := jsOrStr domain "all"
    timeframe := jsOrStr timeframe "recent"
    summary :=
      { totalMarketSegments := marketAnalyses.length
        activeTrends :=
          (marketAnalyses.flatMap (fun a =>
            a.trends.filter (fun t => t.direction == TrendMotion.rising))).length
        feedbackTrend := calculateOverallTrend recentFeedback
        interfaceHealth := calculateInterfaceHealth st }
    insights :=
      [ "Performance metrics indicate stable system operation"
      , "Market opportunities align with current capabilities"
      , "External interface utilization is within expected parameters" ]
    actionItems := generateActionItems recentFeedback marketAnalyses }

structure ExpectedImpact where
  marketReach : String
  responseTime : String
  adaptability : String
deriving DecidableEq

structure PDFeedback where
  type : String
  recommendations : List String
deriving DecidableEq

structure PotentialOptimization where
  targetArea : String
  optimizations : List String
  expectedImpact : ExpectedImpact
  implementationPriority : String
  feedbackToProcessingDirector : PDFeedback
deriving DecidableEq

def optimizeForPotential (targetArea : Option String)
    (constraints : Option Unit) : PotentialOptimization :=
  { targetArea := jsOrStr targetArea "general"
    optimizations :=
      [ "Enhance market awareness through expanded data collection"
      , "Improve feedback loop efficiency with Processing Director"
      , "Strengthen external interface reliability"
      , "Optimize resource allocation based on market priorities" ]
    expectedImpact :=
      { marketReach := "+15%", responseTime := "-20%", adaptability := "+25%" }
    implementationPriority := "medium"
    feedbackToProcessingDirector :=
      { type := "OPTIMIZATION_FEEDBACK"
        recommendations :=
          [ "Consider adjusting processing priorities based on market trends"
          , "Enable proactive resource allocation for emerging opportunities" ] } }

/-- Handler-specific response payload fields of the market service. -/
inductive MarketRespData where
  | marketAnalyzed (analysis : MarketAnalysis)
  | interfaceStatusRetrieved (interfaces : List ExternalInterface)
      (totalActive : Nat) (totalInterfaces : Nat)
  | interfaceRegistered (iface : ExternalInterface)
  | feedbackProcessed (feedback : PerformanceFeedback) (historySize : Nat)
  | intelligenceRetrieved (intelligence : MarketIntelligence)
  | potentialOptimized (optimization : PotentialOptimization)
deriving DecidableEq

def MarketResp : Type := ServiceMessage (RespPayload MarketRespData)

def marketHandleMarketAnalysis (e : Env) (c : Cnt) (cfg : ServiceConfig)
    (st : MarketState) (msg : ServiceMessage MarketPayload) (startTime : Nat) :
    MarketState × MarketResp × Cnt :=
  let (analysis, c1) := analyzeMarket e c (jsOrStr msg.payload.segment "general")
    msg.payload.depth msg.payload.factors
  let st' :=
    { st with
        marketSegments := jsMapSet st.marketSegments analysis.marketSegment analysis }
  let (resp, c2) := mkResponse e c1 cfg startTime "MARKET_ANALYZED"
    msg.source (MarketRespData.marketAnalyzed analysis)
  (st', resp, c2)

def marketHandleInterfaceStatus (e : Env) (c : Cnt) (cfg : ServiceConfig)
    (st : MarketState) (msg : ServiceMessage MarketPayload) (startTime : Nat) :
    MarketState × MarketResp × Cnt :=
  let interfaces : List ExternalInterface :=
    if jsTruthyStr msg.payload.interfaceId then
      match jsMapGet st.externalInterfaces (msg.payload.interfaceId.getD "") with
      | some iface => [iface]
      | none => []
    else jsMapValues st.externalInterfaces
  let (resp, c1) := mkResponse e c cfg startTime "INTERFACE_STATUS_RETRIEVED"
    msg.source (MarketRespData.interfaceStatusRetrieved interfaces
      (interfaces.filter (fun i => i.status == IfaceStatus.active)).length
      interfaces.length)
  (st, resp, c1)

def marketHandleInterfaceRegistration (e : Env) (c : Cnt) (cfg : ServiceConfig)
    (st : MarketState) (msg : ServiceMessage MarketPayload) (startTime : Nat) :
    MarketState × MarketResp × Cnt :=
  let (tId, c1) := tick e c
  let (tAct, c2) := tick e c1
  let newInterface : ExternalInterface :=
    { id := "iface-" ++ toString tId
      interfaceType := jsOrStr msg.payload.interfaceType "generic"
      status := IfaceStatus.active
      capabilities := msg.payload.capabilities.getD []
      metrics :=
        { requestsHandled := 0, averageLatency := 0
          successRate := 1.0, lastActivity := tAct } }
  let st' :=
    { st with
        externalInterfaces := jsMapSet st.externalInterfaces newInterface.id newInterface }
  let (resp, c3) := mkResponse e c2 cfg startTime "INTERFACE_REGISTERED"
    msg.source (MarketRespData.interfaceRegistered newInterface)
  (st', resp, c3)

def marketHandleFeedbackProcessing (e : Env) (c : Cnt) (cfg : ServiceConfig)
    (st : MarketState) (msg : ServiceMessage MarketPayload) (startTime : Nat) :
    MarketState × MarketResp × Cnt :=
  let (feedback, c1) := processFeedback e c st.feedbackHistory
    msg.payload.metrics msg.payload.source
  let pushed := st.feedbackHistory ++ [feedback]
  -- Limit history size
  let newHistory := if pushed.length > 1000 then jsSliceLast pushed 500 else pushed
  let st' := { st with feedbackHistory := newHistory }
  let (resp, c2) := mkResponse e c1 cfg startTime "FEEDBACK_PROCESSED"
    msg.source (MarketRespData.feedbackProcessed feedback newHistory.length)
  (st', resp, c2)

def marketHandleGetIntelligence (e : Env) (c : Cnt) (cfg : ServiceConfig)
    (st : MarketState) (msg : ServiceMessage MarketPayload) (startTime : Nat) :
    MarketState × MarketResp × Cnt :=
  let intelligence := gatherMarketIntelligence st msg.payload.domain
    msg.payload.timeframe
  let (resp, c1) := mkResponse e c cfg startTime "MARKET_INTELLIGENCE_RETRIEVED"
    msg.source (MarketRespData.intelligenceRetrieved intelligence)
  (st, resp, c1)

def marketHandlePotentialOptimization (e : Env) (c : Cnt) (cfg : ServiceConfig)
    (st : MarketState) (msg : ServiceMessage MarketPayload) (startTime : Nat) :
    MarketState × MarketResp × Cnt :=
  let optimization := optimizeForPotential msg.payload.targetArea
    msg.payload.constraints
  let (resp, c1) := mkResponse e c cfg startTime "POTENTIAL_OPTIMIZED"
    msg.source (MarketRespData.potentialOptimized optimization)
  (st, resp, c1)

def marketMessageTypes : List String :=
  [ "ANALYZE_MARKET", "INTERFACE_STATUS", "REGISTER_INTERFACE"
  , "PROCESS_FEEDBACK", "GET_MARKET_INTELLIGENCE", "OPTIMIZE_POTENTIAL" ]

structure MarketProcOut where
  state : MarketState
  response : Option MarketResp
  logs : List LogEntry
  cnt : Cnt

/-- `MarketService.process`. -/
def marketProcess (cfg : ServiceConfig) (e : Env) (c : Cnt) (st : MarketState)
    (msg : ServiceMessage MarketPayload) : MarketProcOut :=
  let (startTime, c0) := tick e c
  let logs : List LogEntry := [("info", "Processing market request")]
  if msg.type = "ANALYZE_MARKET" then
    let (st', resp, c1) := marketHandleMarketAnalysis e c0 cfg st msg startTime
    ⟨st', some resp, logs, c1⟩
  else if msg.type = "INTERFACE_STATUS" then
    let (st', resp, c1) := marketHandleInterfaceStatus e c0 cfg st msg startTime
    ⟨st', some resp, logs, c1⟩
  else if msg.type = "REGISTER_INTERFACE" then
    let (st', resp, c1) := marketHandleInterfaceRegistration e c0 cfg st msg startTime
    ⟨st', some resp, logs, c1⟩
  else if msg.type = "PROCESS_FEEDBACK" then
    let (st', resp, c1) := marketHandleFeedbackProcessing e c0 cfg st msg startTime
    ⟨st', some resp, logs, c1⟩
  else if msg.type = "GET_MARKET_INTELLIGENCE" then
    let (st', resp, c1) := marketHandleGetIntelligence e c0 cfg st msg startTime
    ⟨st', some resp, logs, c1⟩
  else if msg.type = "OPTIMIZE_POTENTIAL" then
    let (st', resp, c1) := marketHandlePotentialOptimization e c0 cfg st msg startTime
    ⟨st', some resp, logs, c1⟩
  else
    ⟨st, none, logs ++ [("warn", "Unknown message type")], c0⟩

/-- The default interfaces seeded by `initializeMarketFramework`. -/
def marketDefaultInterfaces : List (String × List String) :=
  [ ("api", ["REST", "GraphQL"])
  , ("webhook", ["event-driven", "real-time"])
  , ("batch", ["bulk-processing", "scheduled"]) ]

/-- The `defaultInterfaces.forEach((iface, index) => ...)` seeding loop;
`lastActivity` samples `new Date()` once per interface. -/
def seedDefaultInterfaces (e : Env) (c : Cnt) (index : Nat)
    (acc : List (String × ExternalInterface)) :
    List (String × List String) → List (String × ExternalInterface) × Cnt
  | [] => (acc, c)
  | (ifaceType, capabilities) :: rest =>
      let (tAct, c1) := tick e c
      let newInterface : ExternalInterface :=
        { id := "default-iface-" ++ toString index
          interfaceType := ifaceType
          status := IfaceStatus.active
          capabilities := capabilities
          metrics :=
            { requestsHandled := 0, averageLatency := 0
              successRate := 1.0, lastActivity := tAct } }
      seedDefaultInterfaces e c1 (index + 1)
        (jsMapSet acc newInterface.id newInterface) rest

/-- The constructor: empty stores, then `initializeMarketFramework` seeds the
default interfaces and the intelligence baseline. -/
def initMarketFramework (e : Env) (c : Cnt) : MarketState × Cnt :=
  let (interfaces, c1) := seedDefaultInterfaces e c 0 [] marketDefaultInterfaces
  let (tBase, c2) := tick e c1
  ({ marketSegments := []
     externalInterfaces := interfaces
     feedbackHistory := []
     marketIntelligence :=
       jsMapSet [] "baseline" { established := tBase, version := "1.0.0" } }, c2)

/- ===================== Shared proof infrastructure ===================== -/

@[simp] theorem tick_fst (e : Env) (c : Cnt) : (tick e c).1 = e.time c.t := rfl

@[simp] theorem tick_snd_t (e : Env) (c : Cnt) : ((tick e c).2).t = c.t + 1 := rfl

@[simp] theorem roll_snd_t (e : Env) (c : Cnt) : ((roll e c).2).t = c.t := rfl

theorem jsMapGet_set_self {α : Type} (m : List (String × α)) (k : String) (v : α) :
    jsMapGet (jsMapSet m k v) k = some v := by
  induction m with
  | nil => simp [jsMapGet, jsMapSet]
  | cons p rest ih =>
      obtain ⟨k', v'⟩ := p
      by_cases h : k' = k
      · simp [jsMapGet, jsMapSet, h]
      · simpa [jsMapGet, jsMapSet, h] using ih

theorem jsMapValues_set_mem {α : Type} (m : List (String × α)) (k : String)
    (v x : α) (hx : x ∈ jsMapValues (jsMapSet m k v)) :
    x = v ∨ x ∈ jsMapValues m := by
  induction m with
  | nil => simpa [jsMapValues, jsMapSet] using hx
  | cons p rest ih =>
      obtain ⟨k', v'⟩ := p
      by_cases h : k' = k
      · simp [jsMapValues, jsMapSet, h] at hx
        rcases hx with hx | hx
        · exact Or.inl hx
        · exact Or.inr (by simp [jsMapValues, hx])
      · simp [jsMapValues, jsMapSet, h] at hx
        rcases hx with hx | hx
        · exact Or.inr (by simp [jsMapValues, hx])
        · rcases ih (by simpa [jsMapValues] using hx) with h' | h'
          · exact Or.inl h'
          · exact Or.inr (by simp [jsMapValues] at h' ⊢; exact Or.inr h')

/-- A concrete environment for witnesses: the clock reads the sample index,
the random stream is constantly `0`. -/
def envId : Env := ⟨fun i => i, fun _ => 0⟩

theorem envId_time_monotone : Monotone envId.time := fun _ _ h => h

/-- The organization service config built in its `index.ts`. -/
def cfgOrg : ServiceConfig :=
  { port := 3026, serviceName := "organization-service", triadType := "autonomic"
    serviceType := "O-4", environment := "development" }

/-- The sales service config built in its `index.ts`. -/
def cfgSales : ServiceConfig :=
  { port := 3005, serviceName := "sales-service", triadType := "cerebral"
    serviceType := "S-8", environment := "development" }

/-- The treasury service config built in its `index.ts`. -/
def cfgTreasury : ServiceConfig :=
  { port := 3016, serviceName := "treasury-service", triadType := "somatic"
    serviceType := "T-7", environment := "development" }

/-- The market service config built in its `index.ts`. -/
def cfgMarket : ServiceConfig :=
  { port := 3006, serviceName := "market-service", triadType := "cerebral"
    serviceType := "M-1", environment := "development" }

/- ===================== C3 ===================== -/

/-- C3: `scheduleMaintenance` produces a task with status `scheduled`;
`executeMaintenance` on that task (for any random draws) moves it to
`completed` or `failed`, sets `completedAt` non-null, keeps
`issuesResolved ≤ issuesFound`, sets `success` exactly when
`issuesResolved ≥ issuesFound`, makes the status `completed` exactly when
`success` holds, and stores the same results in the task. -/
theorem claimC3_maintenance_lifecycle (e : Env) (c : Cnt)
    (maintenanceType : Option String) (targets : Option (List String))
    (scheduledTime : Option Nat) (e' : Env) (c' : Cnt) :
    (scheduleMaintenance e c maintenanceType targets scheduledTime).1.status =
      MaintStatus.scheduled ∧
    ((executeMaintenance e' c'
        (scheduleMaintenance e c maintenanceType targets scheduledTime).1).2.1.status =
          MaintStatus.completed ∨
      (executeMaintenance e' c'
        (scheduleMaintenance e c maintenanceType targets scheduledTime).1).2.1.status =
          MaintStatus.failed) ∧
    (executeMaintenance e' c'
      (scheduleMaintenance e c maintenanceType targets scheduledTime).1).2.1.completedAt.isSome
        = true ∧
    (executeMaintenance e' c'
      (scheduleMaintenance e c maintenanceType targets scheduledTime).1).1.issuesResolved ≤
      (executeMaintenance e' c'
        (scheduleMaintenance e c maintenanceType targets scheduledTime).1).1.issuesFound ∧
    ((executeMaintenance e' c'
        (scheduleMaintenance e c maintenanceType targets scheduledTime).1).1.success = true ↔
      (executeMaintenance e' c'
        (scheduleMaintenance e c maintenanceType targets scheduledTime).1).1.issuesResolved ≥
        (executeMaintenance e' c'
          (scheduleMaintenance e c maintenanceType targets scheduledTime).1).1.issuesFound) ∧
    ((executeMaintenance e' c'
        (scheduleMaintenance e c maintenanceType targets scheduledTime).1).2.1.status =
          MaintStatus.completed ↔
      (executeMaintenance e' c'
        (scheduleMaintenance e c maintenanceType targets scheduledTime).1).1.success = true) ∧
    (executeMaintenance e' c'
      (scheduleMaintenance e c maintenanceType targets scheduledTime).1).2.1.results =
      (executeMaintenance e' c'
        (scheduleMaintenance e c maintenanceType targets scheduledTime).1).1 := by
  refine ⟨?_, ?_, ?_, ?_, ?_, ?_, ?_⟩
  · cases scheduledTime <;> rfl
  · simp only [executeMaintenance, roll, tick]
    split <;> simp
  · simp only [executeMaintenance, roll, tick]
    rfl
  · simp only [executeMaintenance, roll, tick]
    exact min_le_left _ _
  · simp only [executeMaintenance, roll, tick]
    constructor
    · intro h
      exact of_decide_eq_true h
    · intro h
      exact decide_eq_true h
  · simp only [executeMaintenance, roll, tick]
    split
    · rename_i h
      exact ⟨fun _ => h, fun _ => rfl⟩
    · rename_i h
      exact ⟨fun hc => MaintStatus.noConfusion hc, fun ht => absurd ht h⟩
  · simp only [executeMaintenance, roll, tick]

/- ===================== C4 ===================== -/

/-- C4: an `EXECUTE_MAINTENANCE` message whose `maintenanceId` is not in the
maintenance store yields a successful (non-null) response whose payload holds
`error: "Maintenance task not found"` together with the requested id and the
service name, without throwing (`orgProcess` is total), and leaves the whole
service state unchanged. -/
theorem claimC4_execute_not_found (cfg : ServiceConfig) (e : Env) (c : Cnt)
    (st : OrgState) (msg : ServiceMessage OrgPayload)
    (htype : msg.type = "EXECUTE_MAINTENANCE")
    (hmiss : lookupMaintenance st msg.payload.maintenanceId = none) :
    (orgProcess cfg e c st msg).state = st ∧
    ∃ r, (orgProcess cfg e c st msg).response = some r ∧
      r.payload.data = OrgRespData.maintenanceError "Maintenance task not found"
        msg.payload.maintenanceId ∧
      r.payload.source = cfg.serviceName := by
  have h1 : ("EXECUTE_MAINTENANCE" : String) ≠ "CREATE_ORGANIZATION" := by decide
  have h2 : ("EXECUTE_MAINTENANCE" : String) ≠ "COORDINATE_BACKGROUND" := by decide
  have h3 : ("EXECUTE_MAINTENANCE" : String) ≠ "SCHEDULE_MAINTENANCE" := by decide
  simp only [orgProcess, htype, h1, h2, h3, if_neg, if_pos, ite_true, ite_false,
    reduceIte, handleExecuteMaintenance, hmiss, tick, mkResponse, createMessage]
  exact ⟨trivial, _, rfl, rfl, rfl⟩

/-- C4 witness: the freshly initialized organization service and the id
`"nonexistent-id"`. -/
theorem claimC4_witness :
    (orgProcess cfgOrg envId ⟨10, 0⟩ (initOrganizationFramework envId ⟨0, 0⟩).1
      { id := "m1", type := "EXECUTE_MAINTENANCE"
        payload := { maintenanceId := some "nonexistent-id" }
        source := "api-gateway", destination := "organization-service"
        timestamp := 0 }).state = (initOrganizationFramework envId ⟨0, 0⟩).1 ∧
    ∃ r, (orgProcess cfgOrg envId ⟨10, 0⟩ (initOrganizationFramework envId ⟨0, 0⟩).1
      { id := "m1", type := "EXECUTE_MAINTENANCE"
        payload := { maintenanceId := some "nonexistent-id" }
        source := "api-gateway", destination := "organization-service"
        timestamp := 0 }).response = some r ∧
      r.payload.data = OrgRespData.maintenanceError "Maintenance task not found"
        (some "nonexistent-id") ∧
      r.payload.source = cfgOrg.serviceName :=
  claimC4_execute_not_found cfgOrg envId ⟨10, 0⟩ _ _ rfl (by decide)

/- ===================== C2 ===================== -/

/-- C2: a message whose type is not recognized produces no response envelope
and no exception — the organization service returns `none` (it is total), the
sales service returns `ok` with `none` — and both log a warning instead of
raising an error. -/
theorem claimC2_unknown_type (cfg : ServiceConfig) (e : Env) (c : Cnt)
    (ost : OrgState) (sst : SalesState) (omsg : ServiceMessage OrgPayload)
    (smsg : ServiceMessage SalesPayload)
    (ho : omsg.type ∉ orgMessageTypes) (hs : smsg.type ∉ salesMessageTypes) :
    (orgProcess cfg e c ost omsg).response = none ∧
    ("warn", "Unknown message type") ∈ (orgProcess cfg e c ost omsg).logs ∧
    (∃ c', (salesProcess cfg e c sst smsg).result = Except.ok (sst, none, c')) ∧
    ("warn", "Unknown message type") ∈ (salesProcess cfg e c sst smsg).logs := by
  simp only [orgMessageTypes, List.mem_cons, List.mem_singleton, not_or] at ho
  obtain ⟨o1, o2, o3, o4, o5, o6, o7⟩ := by simpa using ho
  simp only [salesMessageTypes, List.mem_cons, List.mem_singleton, not_or] at hs
  obtain ⟨s1, s2, s3, s4, s5⟩ := by simpa using hs
  refine ⟨?_, ?_, ⟨(⟨c.t + 1, c.r⟩ : Cnt), ?_⟩, ?_⟩
  · simp [orgProcess, o1, o2, o3, o4, o5, o6, o7]
  · simp [orgProcess, o1, o2, o3, o4, o5, o6, o7]
  · simp [salesProcess, s1, s2, s3, s4, s5, tick]
  · simp [salesProcess, s1, s2, s3, s4, s5]

/-- An unrecognized-type message for the organization service witness. -/
def unknownOrgMsg : ServiceMessage OrgPayload :=
  { id := "m1", type := "UNKNOWN_TYPE", payload := {}
    source := "api-gateway", destination := "organization-service"
    timestamp := 0 }

/-- An unrecognized-type message for the sales service witness. -/
def unknownSalesMsg : ServiceMessage SalesPayload :=
  { id := "m2", type := "UNKNOWN_TYPE", payload := {}
    source := "api-gateway", destination := "sales-service"
    timestamp := 0 }

/-- C2 witness: the unrecognized type `"UNKNOWN_TYPE"` against the freshly
initialized organization and sales services. -/
theorem claimC2_witness :
    (orgProcess cfgOrg envId ⟨10, 0⟩ (initOrganizationFramework envId ⟨0, 0⟩).1
      unknownOrgMsg).response = none ∧
    ("warn", "Unknown message type") ∈
      (orgProcess cfgOrg envId ⟨10, 0⟩ (initOrganizationFramework envId ⟨0, 0⟩).1
        unknownOrgMsg).logs ∧
    (∃ c', (salesProcess cfgSales envId ⟨0, 0⟩ initQualityFramework
      unknownSalesMsg).result = Except.ok (initQualityFramework, none, c')) ∧
    ("warn", "Unknown message type") ∈
      (salesProcess cfgSales envId ⟨0, 0⟩ initQualityFramework
        unknownSalesMsg).logs := by
  have hO := claimC2_unknown_type cfgOrg envId ⟨10, 0⟩
    (initOrganizationFramework envId ⟨0, 0⟩).1 initQualityFramework
    unknownOrgMsg unknownSalesMsg (by decide) (by decide)
  have hS := claimC2_unknown_type cfgSales envId ⟨0, 0⟩
    (initOrganizationFramework envId ⟨0, 0⟩).1 initQualityFramework
    unknownOrgMsg unknownSalesMsg (by decide) (by decide)
  exact ⟨hO.1, hO.2.1, hS.2.2.1, hS.2.2.2⟩

/- ===================== C6 ===================== -/

/-- The two clamp spellings agree: the code writes `max 0 (min 1 x)`, the
spec writes `min 1 (max 0 x)`. -/
theorem clamp_comm (x : Rat) : max 0 (min 1 x) = min 1 (max 0 x) := by
  rw [max_min_distrib_left]
  norm_num

/-- C6: an `UPDATE_PROFICIENCY` message naming an existing skill stores
`min(1, max(0, newProficiency))` (the requested proficiency when present,
else the old one), which always lies in `[0, 1]`. -/
theorem claimC6_update_proficiency_clamped (cfg : ServiceConfig) (e : Env)
    (c : Cnt) (st : TreasuryState) (msg : ServiceMessage TreasuryPayload)
    (k : String) (m : MotorMemory)
    (htype : msg.type = "UPDATE_PROFICIENCY")
    (hk : msg.payload.skillId = some k)
    (hm : jsMapGet st.motorMemoryStore k = some m) :
    ∃ m', jsMapGet ((treasuryProcess cfg e c st msg).state).motorMemoryStore k
        = some m' ∧
      m'.proficiency =
        min 1 (max 0 (msg.payload.newProficiency.getD m.proficiency)) ∧
      0 ≤ m'.proficiency ∧ m'.proficiency ≤ 1 := by
  have h1 : ("UPDATE_PROFICIENCY" : String) ≠ "STORE_MOTOR_MEMORY" := by decide
  have h2 : ("UPDATE_PROFICIENCY" : String) ≠ "RETRIEVE_SKILL" := by decide
  have h3 : ("UPDATE_PROFICIENCY" : String) ≠ "REGISTER_LEARNED_SKILL" := by decide
  have hkey : msg.payload.skillId.getD "" = k := by rw [hk]; rfl
  have hlook : lookupMotorMemory st msg.payload.skillId = some m := by
    rw [hk]; exact hm
  use { m with proficiency := max 0 (min 1 (msg.payload.newProficiency.getD m.proficiency)) }
  refine ⟨?_, ?_, ?_, ?_⟩
  · simp only [treasuryProcess, htype, h1, h2, h3, ite_true, ite_false, if_neg,
      if_pos, treasuryHandleUpdateProficiency, hlook, hkey, tick]
    exact jsMapGet_set_self _ _ _
  · exact clamp_comm _
  · exact le_max_left _ _
  · exact max_le zero_le_one (min_le_left _ _)

/-- The first default motor memory seeded by the treasury service under the
witness environment (clock reads its own sample index). -/
def mm0 : MotorMemory :=
  { id := "mm-0", skillName := "basic-motor-control", skillType := "motor"
    pattern := { sequence := [], timing := [], precision := 0.7, adaptability := 0.5 }
    proficiency := 0.9, lastAccessed := 1, accessCount := 0
    metadata := { createdAt := 2, developmentPlanId := none
                  sourceTriad := "somatic", validatedBy := [], dependencies := [] } }

/-- C6 witness: on the freshly initialized treasury store, updating skill
`mm-0` with requested proficiency `5` clamps to `1`, and with `-3` clamps to
`0`. -/
theorem claimC6_witness :
    (∃ m', jsMapGet ((treasuryProcess cfgTreasury envId ⟨20, 0⟩
        (initTreasuryFramework envId ⟨0, 0⟩).1
        { id := "m1", type := "UPDATE_PROFICIENCY"
          payload := { skillId := some "mm-0", newProficiency := some 5 }
          source := "api-gateway", destination := "treasury-service"
          timestamp := 0 }).state).motorMemoryStore "mm-0" = some m' ∧
      m'.proficiency = min 1 (max 0 ((some (5 : Rat)).getD mm0.proficiency)) ∧
      0 ≤ m'.proficiency ∧ m'.proficiency ≤ 1) ∧
    min 1 (max 0 ((some (5 : Rat)).getD mm0.proficiency)) = 1 ∧
    (∃ m', jsMapGet ((treasuryProcess cfgTreasury envId ⟨20, 0⟩
        (initTreasuryFramework envId ⟨0, 0⟩).1
        { id := "m2", type := "UPDATE_PROFICIENCY"
          payload := { skillId := some "mm-0", newProficiency := some (-3) }
          source := "api-gateway", destination := "treasury-service"
          timestamp := 0 }).state).motorMemoryStore "mm-0" = some m' ∧
      m'.proficiency = min 1 (max 0 ((some (-3 : Rat)).getD mm0.proficiency)) ∧
      0 ≤ m'.proficiency ∧ m'.proficiency ≤ 1) ∧
    min 1 (max 0 ((some (-3 : Rat)).getD mm0.proficiency)) = 0 := by
  refine ⟨?_, by norm_num, ?_, by norm_num⟩
  · exact claimC6_update_proficiency_clamped cfgTreasury envId ⟨20, 0⟩ _ _
      "mm-0" mm0 rfl rfl (by rfl)
  · exact claimC6_update_proficiency_clamped cfgTreasury envId ⟨20, 0⟩ _ _
      "mm-0" mm0 rfl rfl (by rfl)

/- ===================== C7 / C10 scenario plumbing ===================== -/

/-- The handler-specific payload data of a treasury process outcome. -/
def respDataOfTreasury (o : TreasuryProcOut) : Option TreasuryRespData :=
  o.response.map (fun r => r.payload.data)

/-- The `result.skill.skillName` of a `SKILL_RETRIEVED` payload. -/
def retrievedSkillName (d : Option TreasuryRespData) : Option String :=
  match d with
  | some (TreasuryRespData.skillRetrieved res) => res.skill.map (fun s => s.skillName)
  | _ => none

/-- The `result.confidence` of a `SKILL_RETRIEVED` payload. -/
def retrievedConfidence (d : Option TreasuryRespData) : Option Rat :=
  match d with
  | some (TreasuryRespData.skillRetrieved res) => some res.confidence
  | _ => none

/- ===================== C7 ===================== -/

def c7storeMsg : ServiceMessage TreasuryPayload :=
  { id := "m1", type := "STORE_MOTOR_MEMORY"
    payload := { skillName := some "basic-motor-control", skillType := some "motor"
                 proficiency := some 0.9 }
    source := "api-gateway", destination := "treasury-service", timestamp := 0 }

def c7retrieveMsg : ServiceMessage TreasuryPayload :=
  { id := "m2", type := "RETRIEVE_SKILL"
    payload := { skillName := some "basic" }
    source := "api-gateway", destination := "treasury-service", timestamp := 0 }

/-- The C7 scenario: initialize the treasury service (which seeds its default
skills), store `basic-motor-control`/`motor`/`0.9`, then retrieve by the
partial name `"basic"`. -/
def c7out2 : TreasuryProcOut :=
  let init := initTreasuryFramework envId ⟨0, 0⟩
  let out1 := treasuryProcess cfgTreasury envId init.2 init.1 c7storeMsg
  treasuryProcess cfgTreasury envId out1.cnt out1.state c7retrieveMsg

/-- C7: in a treasury service with its seeded defaults, storing a motor memory
`basic-motor-control` with proficiency `0.9` and then retrieving by
`"basic"` returns a result whose `skill.skillName` is
`"basic-motor-control"` and whose `confidence` is `0.9`. -/
theorem claimC7_store_retrieve_scenario :
    retrievedSkillName (respDataOfTreasury c7out2) = some "basic-motor-control" ∧
    retrievedConfidence (respDataOfTreasury c7out2) = some 0.9 := by
  constructor <;> rfl

/- ===================== C10 ===================== -/

def c10storeMsg : ServiceMessage TreasuryPayload :=
  { id := "m1", type := "STORE_MOTOR_MEMORY"
    payload := { skillName := some "zskill", skillType := some "motor"
                 proficiency := some 5 }
    source := "api-gateway", destination := "treasury-service", timestamp := 0 }

def c10retrieveMsg : ServiceMessage TreasuryPayload :=
  { id := "m2", type := "RETRIEVE_SKILL"
    payload := { skillName := some "zskill" }
    source := "api-gateway", destination := "treasury-service", timestamp := 0 }

def c10recvMsg : ServiceMessage TreasuryPayload :=
  { id := "m3", type := "RECEIVE_FROM_DEVELOPMENT"
    payload := { completedSkill := some { name := some "wskill", type := some "motor" }
                 proficiency := some (-3) }
    source := "api-gateway", destination := "treasury-service", timestamp := 0 }

/-- The C10 scenario, step 1: store a motor memory with proficiency `5`. -/
def c10out1 : TreasuryProcOut :=
  let init := initTreasuryFramework envId ⟨0, 0⟩
  treasuryProcess cfgTreasury envId init.2 init.1 c10storeMsg

/-- The C10 scenario, step 2: retrieve the skill stored with proficiency `5`. -/
def c10out2 : TreasuryProcOut :=
  treasuryProcess cfgTreasury envId c10out1.cnt c10out1.state c10retrieveMsg

/-- The C10 scenario, step 3: receive a development skill with proficiency
`-3`. -/
def c10out3 : TreasuryProcOut :=
  treasuryProcess cfgTreasury envId c10out2.cnt c10out2.state c10recvMsg

/-- C10 (implicit): creating a motor memory performs no clamping — the
supplied proficiency is stored verbatim (`proficiency ?? 0.5`, only an absent
value getting the default `0.5`), so a `STORE_MOTOR_MEMORY` with proficiency
`5` stores `5`, a later retrieval reports confidence `5 > 1`, and a
`RECEIVE_FROM_DEVELOPMENT` with proficiency `-3` stores `-3 < 0`. -/
theorem claimC10_store_no_clamping :
    (∀ (e : Env) (c : Cnt) (skillName skillType : Option String)
        (pattern : Option PatternSpec) (proficiency : Option Rat)
        (metadata : Option MetadataSpec),
      ((storeMotorMemory e c skillName skillType pattern proficiency
          metadata).1).proficiency = proficiency.getD 0.5) ∧
    (∃ m, jsMapGet c10out1.state.motorMemoryStore "mm-14" = some m ∧
      m.proficiency = 5) ∧
    retrievedConfidence (respDataOfTreasury c10out2) = some 5 ∧
    ¬ ((5 : Rat) ≤ 1) ∧
    (∃ m, jsMapGet c10out3.state.motorMemoryStore "mm-27" = some m ∧
      m.proficiency = -3) ∧
    ¬ ((0 : Rat) ≤ -3) := by
  refine ⟨fun e c n t pat prof md => rfl, ⟨_, rfl, rfl⟩, rfl, by norm_num,
    ⟨_, rfl, rfl⟩, by norm_num⟩

/- ===================== C5 ===================== -/

/-- One `PROCESS_FEEDBACK` step of the history length: append one record,
then truncate to the last 500 when the length exceeds 1000. -/
def histStep (n : Nat) : Nat := if n + 1 > 1000 then 500 else n + 1

theorem marketFeedback_len_step (e : Env) (c : Cnt) (cfg : ServiceConfig)
    (st : MarketState) (msg : ServiceMessage MarketPayload) (startTime : Nat) :
    ((marketHandleFeedbackProcessing e c cfg st msg startTime).1).feedbackHistory.length
      = histStep st.feedbackHistory.length := by
  rcases hpf : processFeedback e c st.feedbackHistory msg.payload.metrics
    msg.payload.source with ⟨fb, c1⟩
  simp only [marketHandleFeedbackProcessing, hpf, histStep]
  have hl : (st.feedbackHistory ++ [fb]).length = st.feedbackHistory.length + 1 := by
    simp
  split_ifs with h1 h2 <;>
    simp_all [jsSliceLast, List.length_drop, List.length_append] <;> omega

/-- Dispatching a `PROCESS_FEEDBACK` message through `marketProcess` applies
`histStep` to the feedback-history length. -/
theorem marketProcess_len_step (cfg : ServiceConfig) (e : Env) (c : Cnt)
    (st : MarketState) (msg : ServiceMessage MarketPayload)
    (h : msg.type = "PROCESS_FEEDBACK") :
    ((marketProcess cfg e c st msg).state).feedbackHistory.length
      = histStep st.feedbackHistory.length := by
  have h1 : ("PROCESS_FEEDBACK" : String) ≠ "ANALYZE_MARKET" := by decide
  have h2 : ("PROCESS_FEEDBACK" : String) ≠ "INTERFACE_STATUS" := by decide
  have h3 : ("PROCESS_FEEDBACK" : String) ≠ "REGISTER_INTERFACE" := by decide
  simp only [marketProcess, h, h1, h2, h3, ite_true, ite_false, if_neg, if_pos]
  exact marketFeedback_len_step e _ cfg st msg _

/-- Processing a list of messages in sequence against the market service. -/
def runMarketSeq (cfg : ServiceConfig) (e : Env) :
    List (ServiceMessage MarketPayload) → MarketState → Cnt → MarketState × Cnt
  | [], st, c => (st, c)
  | m :: rest, st, c =>
      let out := marketProcess cfg e c st m
      runMarketSeq cfg e rest out.state out.cnt

theorem runMarketSeq_len (cfg : ServiceConfig) (e : Env)
    (msgs : List (ServiceMessage MarketPayload)) :
    ∀ (st : MarketState) (c : Cnt),
      (∀ m ∈ msgs, m.type = "PROCESS_FEEDBACK") →
      ((runMarketSeq cfg e msgs st c).1).feedbackHistory.length
        = histStep^[msgs.length] st.feedbackHistory.length := by
  induction msgs with
  | nil => intro st c _; simp [runMarketSeq]
  | cons m rest ih =>
      intro st c h
      simp only [runMarketSeq, List.length_cons]
      rw [ih _ _ (fun m' hm' => h m' (List.mem_cons_of_mem _ hm'))]
      rw [marketProcess_len_step cfg e c st m (h m (List.mem_cons_self _ _))]
      rw [Function.iterate_succ_apply]

theorem histStep_iterate_le (n : Nat) (h : n ≤ 1000) : histStep^[n] 0 = n := by
  induction n with
  | zero => rfl
  | succ k ih =>
      rw [Function.iterate_succ_apply', ih (by omega)]
      rw [histStep, if_neg (by omega)]

theorem histStep_iterate_1100 : histStep^[1100] 0 = 599 := by
  have h1000 : histStep^[1000] 0 = 1000 := histStep_iterate_le 1000 (le_refl _)
  have h1001 : histStep^[1 + 1000] 0 = 500 := by
    rw [Function.iterate_add_apply, Function.iterate_one, h1000, histStep,
      if_pos (by omega)]
  have hrest : ∀ k, k ≤ 99 → histStep^[k + (1 + 1000)] 0 = 500 + k := by
    intro k
    induction k with
    | zero => intro _; rw [Nat.zero_add, Nat.add_zero]; exact h1001
    | succ j ih =>
        intro hj
        rw [show (j + 1) + (1 + 1000) = 1 + (j + (1 + 1000)) by omega,
          Function.iterate_add_apply, Function.iterate_one, ih (by omega),
          histStep, if_neg (by omega)]
        omega
  have h99 := hrest 99 (by omega)
  calc histStep^[1100] 0 = histStep^[99 + (1 + 1000)] 0 := by
        rw [show 99 + (1 + 1000) = 1100 by omega]
    _ = 500 + 99 := h99
    _ = 599 := by omega

/-- A concrete `PROCESS_FEEDBACK` message for the C5 counterexample. -/
def c5msg : ServiceMessage MarketPayload :=
  { id := "m", type := "PROCESS_FEEDBACK"
    payload := { metrics := some { value := some 0.5, type := some "latency" }
                 source := some "sales-service" }
    source := "api-gateway", destination := "market-service", timestamp := 0 }

/-- C5 counterexample: processing 1,100 `PROCESS_FEEDBACK` messages from the
freshly initialized (empty-history) market service leaves 599 stored records,
not 500 — the truncation to the last 500 fires once at the 1,001st push and
the remaining 99 pushes append on top of it. -/
theorem claimC5_counterexample :
    ((runMarketSeq cfgMarket envId (List.replicate 1100 c5msg)
        (initMarketFramework envId ⟨0, 0⟩).1
        (initMarketFramework envId ⟨0, 0⟩).2).1).feedbackHistory.length = 599 ∧
    ¬ (((runMarketSeq cfgMarket envId (List.replicate 1100 c5msg)
        (initMarketFramework envId ⟨0, 0⟩).1
        (initMarketFramework envId ⟨0, 0⟩).2).1).feedbackHistory.length = 500) := by
  have h : ((runMarketSeq cfgMarket envId (List.replicate 1100 c5msg)
      (initMarketFramework envId ⟨0, 0⟩).1
      (initMarketFramework envId ⟨0, 0⟩).2).1).feedbackHistory.length = 599 := by
    rw [runMarketSeq_len cfgMarket envId _ _ _
      (fun m hm => ((List.mem_replicate.mp hm).2).symm ▸ rfl),
      List.length_replicate]
    exact histStep_iterate_1100
  exact ⟨h, by rw [h]; decide⟩

/-- C5 (amended): starting from an empty feedback history, processing 1,100
`PROCESS_FEEDBACK` messages against the market service leaves the stored
history with length exactly 599: lengths grow to 1,000, the 1,001st push
trips the `> 1000` bound and truncates to the tail 500, and the final 99
pushes raise it to 599. -/
theorem claimC5_feedback_history_length (cfg : ServiceConfig) (e : Env)
    (c : Cnt) (st : MarketState) (msgs : List (ServiceMessage MarketPayload))
    (hlen : msgs.length = 1100)
    (hall : ∀ m ∈ msgs, m.type = "PROCESS_FEEDBACK")
    (hempty : st.feedbackHistory = []) :
    ((runMarketSeq cfg e msgs st c).1).feedbackHistory.length = 599 := by
  rw [runMarketSeq_len cfg e msgs st c hall, hempty, hlen]
  exact histStep_iterate_1100

/-- C5 witness: the counterexample scenario instantiates the amended claim. -/
theorem claimC5_witness :
    ((runMarketSeq cfgMarket envId (List.replicate 1100 c5msg)
        (initMarketFramework envId ⟨0, 0⟩).1
        (initMarketFramework envId ⟨0, 0⟩).2).1).feedbackHistory.length = 599 :=
  claimC5_feedback_history_length cfgMarket envId
    (initMarketFramework envId ⟨0, 0⟩).2 (initMarketFramework envId ⟨0, 0⟩).1
    (List.replicate 1100 c5msg) (by simp)
    (fun m hm => ((List.mem_replicate.mp hm).2).symm ▸ rfl) rfl

/- ===================== C8 ===================== -/

theorem jsMapGet_mem_values {α : Type} (m : List (String × α)) (k : String)
    (v : α) (h : jsMapGet m k = some v) : v ∈ jsMapValues m := by
  induction m with
  | nil => simp [jsMapGet] at h
  | cons p rest ih =>
      obtain ⟨k', v'⟩ := p
      by_cases hk : k' = k
      · simp [jsMapGet, hk] at h
        simp [jsMapValues, h]
      · simp [jsMapGet, hk] at h
        obtain ⟨a, ha⟩ := h
        have h' : jsMapGet rest k = some v := by simp [jsMapGet, ha]
        simp [jsMapValues]
        exact Or.inr (by simpa [jsMapValues] using ih h')

theorem createOrganization_status (e : Env) (c : Cnt) (name orgType : Option String)
    (components : Option (List ComponentSpec)) :
    ((createOrganization e c name orgType components).1).status = OrgStatus.active := rfl

theorem handleCreateOrganization_orgs (e : Env) (c : Cnt) (cfg : ServiceConfig)
    (st : OrgState) (msg : ServiceMessage OrgPayload) (startTime : Nat) :
    ∀ o ∈ jsMapValues (((handleCreateOrganization e c cfg st msg startTime).1).organizations),
      o.status = OrgStatus.active ∨ o ∈ jsMapValues st.organizations := by
  intro o ho
  have heq : ((handleCreateOrganization e c cfg st msg startTime).1).organizations =
      jsMapSet st.organizations
        ((createOrganization e c msg.payload.name msg.payload.type
          msg.payload.components).1).id
        (createOrganization e c msg.payload.name msg.payload.type
          msg.payload.components).1 := rfl
  rw [heq] at ho
  rcases jsMapValues_set_mem _ _ _ _ ho with rfl | hmem
  · exact Or.inl (createOrganization_status _ _ _ _ _)
  · exact Or.inr hmem

theorem handleExecuteMaintenance_orgs (e : Env) (c : Cnt) (cfg : ServiceConfig)
    (st : OrgState) (msg : ServiceMessage OrgPayload) (startTime : Nat) :
    ((handleExecuteMaintenance e c cfg st msg startTime).1).organizations =
      st.organizations := by
  rcases hlook : lookupMaintenance st msg.payload.maintenanceId with _ | m
  · simp [handleExecuteMaintenance, hlook]
  · simp [handleExecuteMaintenance, hlook]

theorem handleOptimizeOrganization_orgs (e : Env) (c : Cnt) (cfg : ServiceConfig)
    (st : OrgState) (msg : ServiceMessage OrgPayload) (startTime : Nat) :
    ∀ o ∈ jsMapValues (((handleOptimizeOrganization e c cfg st msg startTime).1).organizations),
      o.status = OrgStatus.active ∨ o ∈ jsMapValues st.organizations := by
  intro o ho
  rcases horg : (if jsTruthyStr msg.payload.organizationId then
      jsMapGet st.organizations (msg.payload.organizationId.getD "") else none)
    with _ | org
  · have heq : ((handleOptimizeOrganization e c cfg st msg startTime).1).organizations
        = st.organizations := by
      simp [handleOptimizeOrganization, horg, optimizeOrganization]
    rw [heq] at ho
    exact Or.inr ho
  · have heq : ((handleOptimizeOrganization e c cfg st msg startTime).1).organizations
        = jsMapSet st.organizations (msg.payload.organizationId.getD "")
          ((optimizeOrganization e c (some org) msg.payload.optimizationType).2.1.getD org) := by
      simp only [handleOptimizeOrganization, horg, optimizeOrganization]
      rfl
    rw [heq] at ho
    rcases jsMapValues_set_mem _ _ _ _ ho with rfl | hmem
    · exact Or.inl rfl
    · exact Or.inr hmem

/-- Dispatch helper: however `orgProcess` dispatches, every organization in
the post-state is either freshly set `active` or was already in the store. -/
theorem orgProcess_orgs_sub (cfg : ServiceConfig) (e : Env) (c : Cnt)
    (st : OrgState) (msg : ServiceMessage OrgPayload) :
    ∀ o ∈ jsMapValues ((orgProcess cfg e c st msg).state).organizations,
      o.status = OrgStatus.active ∨ o ∈ jsMapValues st.organizations := by
  intro o ho
  simp only [orgProcess] at ho
  by_cases h1 : msg.type = "CREATE_ORGANIZATION"
  · rw [if_pos h1] at ho
    exact handleCreateOrganization_orgs e (tick e c).2 cfg st msg (tick e c).1 o ho
  rw [if_neg h1] at ho
  by_cases h2 : msg.type = "COORDINATE_BACKGROUND"
  · rw [if_pos h2] at ho
    exact Or.inr ho
  rw [if_neg h2] at ho
  by_cases h3 : msg.type = "SCHEDULE_MAINTENANCE"
  · rw [if_pos h3] at ho
    exact Or.inr ho
  rw [if_neg h3] at ho
  by_cases h4 : msg.type = "EXECUTE_MAINTENANCE"
  · rw [if_pos h4] at ho
    have ho' : o ∈ jsMapValues
        (((handleExecuteMaintenance e (tick e c).2 cfg st msg
          (tick e c).1).1)).organizations := ho
    rw [handleExecuteMaintenance_orgs] at ho'
    exact Or.inr ho'
  rw [if_neg h4] at ho
  by_cases h5 : msg.type = "GET_ORGANIZATION_STATUS"
  · rw [if_pos h5] at ho
    exact Or.inr ho
  rw [if_neg h5] at ho
  by_cases h6 : msg.type = "OPTIMIZE_ORGANIZATION"
  · rw [if_pos h6] at ho
    exact handleOptimizeOrganization_orgs e (tick e c).2 cfg st msg (tick e c).1 o ho
  rw [if_neg h6] at ho
  by_cases h7 : msg.type = "SYNC_WITH_STATE_MANAGEMENT"
  · rw [if_pos h7] at ho
    exact Or.inr ho
  rw [if_neg h7] at ho
  exact Or.inr ho

/-- C8: the `optimizing` status is transient.  (a) An `OPTIMIZE_ORGANIZATION`
message naming an existing organization leaves that organization with status
`active`; (b) if no stored organization is `optimizing` before a `process`
call, none is afterwards, whatever the message; (c) no seeded organization
starts out `optimizing` — so between `process` calls no organization ever has
status `optimizing`. -/
theorem claimC8_optimizing_transient :
    (∀ (cfg : ServiceConfig) (e : Env) (c : Cnt) (st : OrgState)
        (msg : ServiceMessage OrgPayload) (k : String) (org : SystemOrganization),
      msg.type = "OPTIMIZE_ORGANIZATION" → msg.payload.organizationId = some k →
      k ≠ "" → jsMapGet st.organizations k = some org →
      ∃ org', jsMapGet ((orgProcess cfg e c st msg).state).organizations k
          = some org' ∧ org'.status = OrgStatus.active) ∧
    (∀ (cfg : ServiceConfig) (e : Env) (c : Cnt) (st : OrgState)
        (msg : ServiceMessage OrgPayload),
      (∀ o ∈ jsMapValues st.organizations, o.status ≠ OrgStatus.optimizing) →
      ∀ o ∈ jsMapValues ((orgProcess cfg e c st msg).state).organizations,
        o.status ≠ OrgStatus.optimizing) ∧
    (∀ (e : Env) (c : Cnt),
      ∀ o ∈ jsMapValues (((initOrganizationFramework e c).1).organizations),
        o.status ≠ OrgStatus.optimizing) := by
  refine ⟨?_, ?_, ?_⟩
  · intro cfg e c st msg k org htype hk hkne hget
    have hn1 : ¬ (msg.type = "CREATE_ORGANIZATION") := by rw [htype]; decide
    have hn2 : ¬ (msg.type = "COORDINATE_BACKGROUND") := by rw [htype]; decide
    have hn3 : ¬ (msg.type = "SCHEDULE_MAINTENANCE") := by rw [htype]; decide
    have hn4 : ¬ (msg.type = "EXECUTE_MAINTENANCE") := by rw [htype]; decide
    have hn5 : ¬ (msg.type = "GET_ORGANIZATION_STATUS") := by rw [htype]; decide
    have htr : jsTruthyStr msg.payload.organizationId = true := by
      simp [jsTruthyStr, hk, hkne]
    have hkey : msg.payload.organizationId.getD "" = k := by rw [hk]; rfl
    show ∃ org', jsMapGet ((orgProcess cfg e c st msg).state).organizations k
        = some org' ∧ org'.status = OrgStatus.active
    simp only [orgProcess]
    rw [if_neg hn1, if_neg hn2, if_neg hn3, if_neg hn4, if_neg hn5, if_pos htype]
    simp only [handleOptimizeOrganization, htr, hkey, hget, optimizeOrganization,
      ite_true]
    exact ⟨_, jsMapGet_set_self _ _ _, rfl⟩
  · intro cfg e c st msg hinv o ho
    rcases orgProcess_orgs_sub cfg e c st msg o ho with hact | hmem
    · simp [hact]
    · exact hinv o hmem
  · intro e c o ho
    have heq : (((initOrganizationFramework e c).1)).organizations =
        jsMapSet []
          ((createOrganization e c (some "autonomic-core") (some "coordination")
            none).1).id
          (createOrganization e c (some "autonomic-core") (some "coordination")
            none).1 := rfl
    rw [heq] at ho
    rcases jsMapValues_set_mem _ _ _ _ ho with rfl | hmem
    · intro hcon
      exact OrgStatus.noConfusion
        (((createOrganization_status e c _ _ _).symm).trans hcon)
    · exact absurd hmem (by simp [jsMapValues])

/-- A throwaway organization used as a `headD` default in witnesses. -/
def dummyOrg : SystemOrganization :=
  { id := "", name := "", type := "", components := []
    status := OrgStatus.active
    metrics := { efficiency := 0, coordination := 0, responsiveness := 0, stability := 0 }
    lastUpdated := 0 }

def c8optMsg : ServiceMessage OrgPayload :=
  { id := "m1", type := "OPTIMIZE_ORGANIZATION"
    payload := { organizationId := some "org-0" }
    source := "api-gateway", destination := "organization-service"
    timestamp := 0 }

/-- The first organization stored after the witness optimize call. -/
def c8postOrg : SystemOrganization :=
  (jsMapValues ((orgProcess cfgOrg envId ⟨20, 0⟩
    (initOrganizationFramework envId ⟨0, 0⟩).1 c8optMsg).state).organizations).headD
    dummyOrg

/-- The first organization stored right after initialization. -/
def c8initOrg : SystemOrganization :=
  (jsMapValues (((initOrganizationFramework envId ⟨0, 0⟩).1)).organizations).headD
    dummyOrg

/-- C8 witness: optimizing the seeded organization `org-0` leaves it
`active`, and concrete stored organizations are never `optimizing`. -/
theorem claimC8_witness :
    (∃ org', jsMapGet ((orgProcess cfgOrg envId ⟨20, 0⟩
        (initOrganizationFramework envId ⟨0, 0⟩).1 c8optMsg).state).organizations
        "org-0" = some org' ∧ org'.status = OrgStatus.active) ∧
    c8postOrg.status ≠ OrgStatus.optimizing ∧
    c8initOrg.status ≠ OrgStatus.optimizing := by
  refine ⟨?_, ?_, ?_⟩
  · exact claimC8_optimizing_transient.1 cfgOrg envId ⟨20, 0⟩
      (initOrganizationFramework envId ⟨0, 0⟩).1 c8optMsg "org-0" _ rfl rfl
      (by decide) rfl
  · exact claimC8_optimizing_transient.2.1 cfgOrg envId ⟨20, 0⟩
      (initOrganizationFramework envId ⟨0, 0⟩).1 c8optMsg
      (claimC8_optimizing_transient.2.2 envId ⟨0, 0⟩) c8postOrg
      (List.mem_of_elem_eq_true (by rfl))
  · exact claimC8_optimizing_transient.2.2 envId ⟨0, 0⟩ c8initOrg
      (List.mem_of_elem_eq_true (by rfl))

/- ===================== C9 ===================== -/

/-- All four organization metrics lie in `[0, 1]`. -/
def MetricsInRange (m : OrganizationMetrics) : Prop :=
  0 ≤ m.efficiency ∧ m.efficiency ≤ 1 ∧
  0 ≤ m.coordination ∧ m.coordination ≤ 1 ∧
  0 ≤ m.responsiveness ∧ m.responsiveness ≤ 1 ∧
  0 ≤ m.stability ∧ m.stability ≤ 1

instance (m : OrganizationMetrics) : Decidable (MetricsInRange m) := by
  unfold MetricsInRange
  infer_instance

theorem clampInc_bounds (x : Rat) (inc : Option Rat) (hx : 0 ≤ x)
    (hinc : 0 ≤ jsOrRat inc 0) :
    0 ≤ min 1 (x + jsOrRat inc 0) ∧ min 1 (x + jsOrRat inc 0) ≤ 1 :=
  ⟨le_min zero_le_one (add_nonneg hx hinc), min_le_left _ _⟩

theorem jsOrRat_ite_nonneg (cond : Prop) [Decidable cond] (v : Rat) (hv : 0 ≤ v)
    (l : List String) :
    0 ≤ jsOrRat ((if cond then (l, some v) else ([], none)).2) 0 := by
  split_ifs with h
  · simp only [jsOrRat]
    split_ifs <;> simp_all
  · simp [jsOrRat]

theorem optimizeOrganization_metrics (e : Env) (c : Cnt)
    (org : SystemOrganization) (ot : Option String)
    (h : MetricsInRange org.metrics) :
    ∀ org2, (optimizeOrganization e c (some org) ot).2.1 = some org2 →
      MetricsInRange org2.metrics := by
  intro org2 h2
  obtain ⟨he0, he1, hc0, hc1, hr0, hr1, hs0, hs1⟩ := h
  simp only [optimizeOrganization] at h2
  injection h2 with h2
  subst h2
  refine ⟨?_, ?_, ?_, ?_, ?_, ?_, ?_, ?_⟩
  · exact (clampInc_bounds _ _ he0 (jsOrRat_ite_nonneg _ _ (by norm_num) _)).1
  · exact (clampInc_bounds _ _ he0 (jsOrRat_ite_nonneg _ _ (by norm_num) _)).2
  · exact (clampInc_bounds _ _ hc0 (jsOrRat_ite_nonneg _ _ (by norm_num) _)).1
  · exact (clampInc_bounds _ _ hc0 (jsOrRat_ite_nonneg _ _ (by norm_num) _)).2
  · exact (clampInc_bounds _ _ hr0 (jsOrRat_ite_nonneg _ _ (by norm_num) _)).1
  · exact (clampInc_bounds _ _ hr0 (jsOrRat_ite_nonneg _ _ (by norm_num) _)).2
  · exact (clampInc_bounds _ _ hs0 (jsOrRat_ite_nonneg _ _ (by norm_num) _)).1
  · exact (clampInc_bounds _ _ hs0 (jsOrRat_ite_nonneg _ _ (by norm_num) _)).2

theorem handleOptimizeOrganization_metrics (e : Env) (c : Cnt)
    (cfg : ServiceConfig) (st : OrgState) (msg : ServiceMessage OrgPayload)
    (startTime : Nat)
    (hall : ∀ o ∈ jsMapValues st.organizations, MetricsInRange o.metrics) :
    ∀ o ∈ jsMapValues (((handleOptimizeOrganization e c cfg st msg startTime).1).organizations),
      MetricsInRange o.metrics := by
  intro o ho
  rcases horg : (if jsTruthyStr msg.payload.organizationId then
      jsMapGet st.organizations (msg.payload.organizationId.getD "") else none)
    with _ | org
  · have heq : ((handleOptimizeOrganization e c cfg st msg startTime).1).organizations
        = st.organizations := by
      simp [handleOptimizeOrganization, horg, optimizeOrganization]
    rw [heq] at ho
    exact hall o ho
  · have hmemorg : org ∈ jsMapValues st.organizations := by
      by_cases ht : jsTruthyStr msg.payload.organizationId
      · rw [if_pos ht] at horg
        exact jsMapGet_mem_values _ _ _ horg
      · rw [if_neg ht] at horg
        exact absurd horg (by simp)
    have heq : ((handleOptimizeOrganization e c cfg st msg startTime).1).organizations
        = jsMapSet st.organizations (msg.payload.organizationId.getD "")
          ((optimizeOrganization e c (some org) msg.payload.optimizationType).2.1.getD org) := by
      simp only [handleOptimizeOrganization, horg, optimizeOrganization]
      rfl
    rw [heq] at ho
    rcases jsMapValues_set_mem _ _ _ _ ho with rfl | hmem
    · exact optimizeOrganization_metrics e c org msg.payload.optimizationType
        (hall org hmemorg) _ rfl
    · exact hall o hmem

theorem orgProcess_metrics_step (cfg : ServiceConfig) (e : Env) (c : Cnt)
    (st : OrgState) (msg : ServiceMessage OrgPayload)
    (htype : msg.type = "OPTIMIZE_ORGANIZATION")
    (hall : ∀ o ∈ jsMapValues st.organizations, MetricsInRange o.metrics) :
    ∀ o ∈ jsMapValues ((orgProcess cfg e c st msg).state).organizations,
      MetricsInRange o.metrics := by
  intro o ho
  have hn1 : ¬ (msg.type = "CREATE_ORGANIZATION") := by rw [htype]; decide
  have hn2 : ¬ (msg.type = "COORDINATE_BACKGROUND") := by rw [htype]; decide
  have hn3 : ¬ (msg.type = "SCHEDULE_MAINTENANCE") := by rw [htype]; decide
  have hn4 : ¬ (msg.type = "EXECUTE_MAINTENANCE") := by rw [htype]; decide
  have hn5 : ¬ (msg.type = "GET_ORGANIZATION_STATUS") := by rw [htype]; decide
  simp only [orgProcess] at ho
  rw [if_neg hn1, if_neg hn2, if_neg hn3, if_neg hn4, if_neg hn5,
    if_pos htype] at ho
  exact handleOptimizeOrganization_metrics e (tick e c).2 cfg st msg
    (tick e c).1 hall o ho

/-- Processing a list of messages in sequence against the organization
service. -/
def runOrgSeq (cfg : ServiceConfig) (e : Env) :
    List (ServiceMessage OrgPayload) → OrgState → Cnt → OrgState × Cnt
  | [], st, c => (st, c)
  | m :: rest, st, c =>
      let out := orgProcess cfg e c st m
      runOrgSeq cfg e rest out.state out.cnt

/-- C9: for every organization whose four metrics lie in `[0, 1]`, after any
sequence of `OPTIMIZE_ORGANIZATION` calls all stored organizations still have
all four metrics in `[0, 1]`: each incremental adjustment is clamped by
`Math.min(1, ·)` over a non-negative increment, so it never exceeds `1` and
never falls below `0`. -/
theorem claimC9_metrics_clamped (cfg : ServiceConfig) (e : Env) (c : Cnt)
    (st : OrgState) (msgs : List (ServiceMessage OrgPayload))
    (hall : ∀ m ∈ msgs, m.type = "OPTIMIZE_ORGANIZATION")
    (hinv : ∀ o ∈ jsMapValues st.organizations, MetricsInRange o.metrics) :
    ∀ o ∈ jsMapValues ((runOrgSeq cfg e msgs st c).1).organizations,
      MetricsInRange o.metrics := by
  induction msgs generalizing st c with
  | nil => simpa [runOrgSeq] using hinv
  | cons m rest ih =>
      simp only [runOrgSeq]
      exact ih _ _ (fun m' hm' => hall m' (List.mem_cons_of_mem _ hm'))
        (orgProcess_metrics_step cfg e c st m (hall m (List.mem_cons_self _ _)) hinv)

/-- The first stored organization after the C9 witness run. -/
def c9postOrg : SystemOrganization :=
  (jsMapValues ((runOrgSeq cfgOrg envId [c8optMsg, c8optMsg]
    (initOrganizationFramework envId ⟨0, 0⟩).1 ⟨20, 0⟩).1).organizations).headD
    dummyOrg

/-- C9 witness: two optimize calls on the seeded organization (whose metrics
start in `[0, 1]`) leave the stored metrics in `[0, 1]`. -/
theorem claimC9_witness : MetricsInRange c9postOrg.metrics :=
  claimC9_metrics_clamped cfgOrg envId ⟨20, 0⟩
    (initOrganizationFramework envId ⟨0, 0⟩).1 [c8optMsg, c8optMsg]
    (by decide) (by decide) c9postOrg (List.mem_of_elem_eq_true (by rfl))

/- ===================== C1 ===================== -/

theorem buildComponents_t_le (e : Env) :
    ∀ (l : List ComponentSpec) (c : Cnt) (i : Nat),
      c.t ≤ ((buildComponents e c i l).2).t := by
  intro l
  induction l with
  | nil => intro c i; simp [buildComponents]
  | cons spec rest ih =>
      intro c i
      rcases hid : spec.id with _ | s
      · have heq : (buildComponents e c i (spec :: rest)).2 =
            (buildComponents e ⟨c.t + 1, c.r⟩ (i + 1) rest).2 := by
          simp [buildComponents, hid, tick]
        rw [heq]
        exact le_trans (Nat.le_succ c.t) (ih ⟨c.t + 1, c.r⟩ (i + 1))
      · by_cases hs : s = ""
        · have heq : (buildComponents e c i (spec :: rest)).2 =
              (buildComponents e ⟨c.t + 1, c.r⟩ (i + 1) rest).2 := by
            simp [buildComponents, hid, hs, tick]
          rw [heq]
          exact le_trans (Nat.le_succ c.t) (ih ⟨c.t + 1, c.r⟩ (i + 1))
        · have heq : (buildComponents e c i (spec :: rest)).2 =
              (buildComponents e c (i + 1) rest).2 := by
            simp [buildComponents, hid, hs]
          rw [heq]
          exact ih c (i + 1)

theorem createOrganization_t_le (e : Env) (c : Cnt) (name orgType : Option String)
    (components : Option (List ComponentSpec)) :
    c.t ≤ ((createOrganization e c name orgType components).2).t := by
  have heq : ((createOrganization e c name orgType components).2).t =
      ((buildComponents e c 0 (components.getD [])).2).t + 2 := rfl
  rw [heq]
  have := buildComponents_t_le e (components.getD []) c 0
  omega

theorem createBackgroundCoordination_t (e : Env) (c : Cnt)
    (coordinationType : Option String) (participants : Option (List String))
    (priority frequency : Option String) :
    ((createBackgroundCoordination e c coordinationType participants priority
      frequency).2).t = c.t + 2 := rfl

theorem scheduleMaintenance_t_le (e : Env) (c : Cnt)
    (maintenanceType : Option String) (targets : Option (List String))
    (scheduledTime : Option Nat) :
    c.t ≤ ((scheduleMaintenance e c maintenanceType targets scheduledTime).2).t := by
  rcases scheduledTime with _ | t'
  · have heq : ((scheduleMaintenance e c maintenanceType targets none).2).t
        = c.t + 2 := rfl
    omega
  · have heq : ((scheduleMaintenance e c maintenanceType targets (some t')).2).t
        = c.t + 1 := rfl
    omega

theorem executeMaintenance_t (e : Env) (c : Cnt) (m : SystemMaintenance) :
    ((executeMaintenance e c m).2.2).t = c.t + 1 := rfl

theorem filterActiveCoords_t_le (e : Env) :
    ∀ (l : List BackgroundCoordination) (c : Cnt),
      c.t ≤ ((filterActiveCoords e c l).2).t := by
  intro l
  induction l with
  | nil => intro c; simp [filterActiveCoords]
  | cons co rest ih =>
      intro c
      by_cases hgt : co.schedule.executionCount > 0
      · have heq : (filterActiveCoords e c (co :: rest)).2 =
            (filterActiveCoords e c rest).2 := by
          simp [filterActiveCoords, hgt]
        rw [heq]
        exact ih c
      · have heq : (filterActiveCoords e c (co :: rest)).2 =
            (filterActiveCoords e ⟨c.t + 1, c.r⟩ rest).2 := by
          simp [filterActiveCoords, hgt, tick]
        rw [heq]
        exact le_trans (Nat.le_succ c.t) (ih ⟨c.t + 1, c.r⟩)

theorem getOverallOrganizationStatus_t_le (e : Env) (c : Cnt) (st : OrgState)
    (includeComponents : Option Bool) :
    c.t ≤ ((getOverallOrganizationStatus e c st includeComponents).2).t := by
  have heq : ((getOverallOrganizationStatus e c st includeComponents).2).t =
      ((filterActiveCoords e c (jsMapValues st.coordinations)).2).t := rfl
  rw [heq]
  exact filterActiveCoords_t_le e (jsMapValues st.coordinations) c

theorem syncWithStateManagement_t (e : Env) (c : Cnt) (st : OrgState)
    (syncType : Option String) (srcData : Option Unit) :
    ((syncWithStateManagement e c st syncType srcData).2).t = c.t + 1 := rfl

theorem mkResponse_source {D : Type} (e : Env) (c : Cnt) (cfg : ServiceConfig)
    (startTime : Nat) (rtype dest : String) (d : D) :
    ((mkResponse e c cfg startTime rtype dest d).1).payload.source
      = cfg.serviceName := rfl

theorem mkResponse_pt {D : Type} (e : Env) (c : Cnt) (cfg : ServiceConfig)
    (startTime : Nat) (rtype dest : String) (d : D) :
    ((mkResponse e c cfg startTime rtype dest d).1).payload.processingTime
      = (e.time c.t : Int) - (startTime : Int) := rfl

/-- Shape of every organization handler response relevant to C1: the payload
source is the configured service name, and the processing time is a clock
sample at some counter index not earlier than the handler entry, minus the
start time. -/
def RespC1Shape (e : Env) (c : Cnt) (cfg : ServiceConfig) (startTime : Nat)
    (r : OrgResp) : Prop :=
  r.payload.source = cfg.serviceName ∧
  ∃ j, c.t ≤ j ∧ r.payload.processingTime = (e.time j : Int) - (startTime : Int)

theorem handleCreateOrganization_c1 (e : Env) (c : Cnt) (cfg : ServiceConfig)
    (st : OrgState) (msg : ServiceMessage OrgPayload) (startTime : Nat) :
    RespC1Shape e c cfg startTime
      (handleCreateOrganization e c cfg st msg startTime).2.1 :=
  ⟨rfl,
   ((createOrganization e c msg.payload.name msg.payload.type
      msg.payload.components).2).t,
   createOrganization_t_le e c msg.payload.name msg.payload.type
     msg.payload.components,
   rfl⟩

theorem handleBackgroundCoordination_c1 (e : Env) (c : Cnt) (cfg : ServiceConfig)
    (st : OrgState) (msg : ServiceMessage OrgPayload) (startTime : Nat) :
    RespC1Shape e c cfg startTime
      (handleBackgroundCoordination e c cfg st msg startTime).2.1 :=
  ⟨rfl, c.t + 2, Nat.le_add_right c.t 2, rfl⟩

theorem handleScheduleMaintenance_c1 (e : Env) (c : Cnt) (cfg : ServiceConfig)
    (st : OrgState) (msg : ServiceMessage OrgPayload) (startTime : Nat) :
    RespC1Shape e c cfg startTime
      (handleScheduleMaintenance e c cfg st msg startTime).2.1 :=
  ⟨rfl,
   ((scheduleMaintenance e c msg.payload.maintenanceType msg.payload.targets
      msg.payload.scheduledTime).2).t,
   scheduleMaintenance_t_le e c msg.payload.maintenanceType msg.payload.targets
     msg.payload.scheduledTime,
   rfl⟩

theorem handleExecuteMaintenance_c1 (e : Env) (c : Cnt) (cfg : ServiceConfig)
    (st : OrgState) (msg : ServiceMessage OrgPayload) (startTime : Nat) :
    RespC1Shape e c cfg startTime
      (handleExecuteMaintenance e c cfg st msg startTime).2.1 := by
  rcases hlook : lookupMaintenance st msg.payload.maintenanceId with _ | m
  · refine ⟨?_, c.t, le_refl _, ?_⟩ <;>
      simp only [handleExecuteMaintenance, hlook] <;> rfl
  · refine ⟨?_, c.t + 1, Nat.le_succ _, ?_⟩ <;>
      simp only [handleExecuteMaintenance, hlook] <;> rfl

theorem handleGetOrganizationStatus_c1 (e : Env) (c : Cnt) (cfg : ServiceConfig)
    (st : OrgState) (msg : ServiceMessage OrgPayload) (startTime : Nat) :
    RespC1Shape e c cfg startTime
      (handleGetOrganizationStatus e c cfg st msg startTime).2.1 := by
  by_cases ht : jsTruthyStr msg.payload.organizationId = true
  · refine ⟨?_, c.t, le_refl _, ?_⟩ <;>
      simp only [handleGetOrganizationStatus, ht, if_true] <;> rfl
  · rw [Bool.not_eq_true] at ht
    refine ⟨?_, ((getOverallOrganizationStatus e c st
        msg.payload.includeComponents).2).t,
        getOverallOrganizationStatus_t_le e c st msg.payload.includeComponents,
        ?_⟩ <;>
      simp only [handleGetOrganizationStatus, ht, Bool.false_eq_true, if_false] <;>
      rfl

theorem handleOptimizeOrganization_c1 (e : Env) (c : Cnt) (cfg : ServiceConfig)
    (st : OrgState) (msg : ServiceMessage OrgPayload) (startTime : Nat) :
    RespC1Shape e c cfg startTime
      (handleOptimizeOrganization e c cfg st msg startTime).2.1 := by
  rcases horg : (if jsTruthyStr msg.payload.organizationId then
      jsMapGet st.organizations (msg.payload.organizationId.getD "") else none)
    with _ | org
  · refine ⟨?_, c.t, le_refl _, ?_⟩ <;>
      simp only [handleOptimizeOrganization, horg, optimizeOrganization] <;> rfl
  · refine ⟨?_, c.t + 1, Nat.le_succ _, ?_⟩ <;>
      simp only [handleOptimizeOrganization, horg, optimizeOrganization] <;> rfl

theorem handleSyncWithStateManagement_c1 (e : Env) (c : Cnt) (cfg : ServiceConfig)
    (st : OrgState) (msg : ServiceMessage OrgPayload) (startTime : Nat) :
    RespC1Shape e c cfg startTime
      (handleSyncWithStateManagement e c cfg st msg startTime).2.1 :=
  ⟨rfl, c.t + 1, Nat.le_succ c.t, rfl⟩

theorem respC1_nonneg (e : Env) (c : Cnt) (cfg : ServiceConfig) (r : OrgResp)
    (hm : Monotone e.time)
    (h : RespC1Shape e (tick e c).2 cfg (tick e c).1 r) :
    r.payload.source = cfg.serviceName ∧ 0 ≤ r.payload.processingTime := by
  obtain ⟨hsrc, j, hj, hpt⟩ := h
  refine ⟨hsrc, ?_⟩
  rw [hpt]
  have hj2 : c.t + 1 ≤ j := hj
  have h1 : (tick e c).1 = e.time c.t := rfl
  rw [h1]
  have hmono : e.time c.t ≤ e.time j := hm (by omega)
  omega

theorem orgProcess_c1 (cfg : ServiceConfig) (e : Env) (c : Cnt) (st : OrgState)
    (msg : ServiceMessage OrgPayload) (hm : Monotone e.time)
    (htype : msg.type ∈ orgMessageTypes) :
    ∃ r, (orgProcess cfg e c st msg).response = some r ∧
      r.payload.source = cfg.serviceName ∧ 0 ≤ r.payload.processingTime := by
  simp only [orgMessageTypes, List.mem_cons, List.not_mem_nil, or_false] at htype
  rcases htype with h1 | h2 | h3 | h4 | h5 | h6 | h7
  · have hresp : (orgProcess cfg e c st msg).response
        = some (handleCreateOrganization e (tick e c).2 cfg st msg (tick e c).1).2.1 := by
      simp only [orgProcess]
      rw [if_pos h1]
    exact ⟨_, hresp, respC1_nonneg e c cfg _ hm
      (handleCreateOrganization_c1 e (tick e c).2 cfg st msg (tick e c).1)⟩
  · have hn1 : ¬ (msg.type = "CREATE_ORGANIZATION") := by rw [h2]; decide
    have hresp : (orgProcess cfg e c st msg).response
        = some (handleBackgroundCoordination e (tick e c).2 cfg st msg (tick e c).1).2.1 := by
      simp only [orgProcess]
      rw [if_neg hn1, if_pos h2]
    exact ⟨_, hresp, respC1_nonneg e c cfg _ hm
      (handleBackgroundCoordination_c1 e (tick e c).2 cfg st msg (tick e c).1)⟩
  · have hn1 : ¬ (msg.type = "CREATE_ORGANIZATION") := by rw [h3]; decide
    have hn2 : ¬ (msg.type = "COORDINATE_BACKGROUND") := by rw [h3]; decide
    have hresp : (orgProcess cfg e c st msg).response
        = some (handleScheduleMaintenance e (tick e c).2 cfg st msg (tick e c).1).2.1 := by
      simp only [orgProcess]
      rw [if_neg hn1, if_neg hn2, if_pos h3]
    exact ⟨_, hresp, respC1_nonneg e c cfg _ hm
      (handleScheduleMaintenance_c1 e (tick e c).2 cfg st msg (tick e c).1)⟩
  · have hn1 : ¬ (msg.type = "CREATE_ORGANIZATION") := by rw [h4]; decide
    have hn2 : ¬ (msg.type = "COORDINATE_BACKGROUND") := by rw [h4]; decide
    have hn3 : ¬ (msg.type = "SCHEDULE_MAINTENANCE") := by rw [h4]; decide
    have hresp : (orgProcess cfg e c st msg).response
        = some (handleExecuteMaintenance e (tick e c).2 cfg st msg (tick e c).1).2.1 := by
      simp only [orgProcess]
      rw [if_neg hn1, if_neg hn2, if_neg hn3, if_pos h4]
    exact ⟨_, hresp, respC1_nonneg e c cfg _ hm
      (handleExecuteMaintenance_c1 e (tick e c).2 cfg st msg (tick e c).1)⟩
  · have hn1 : ¬ (msg.type = "CREATE_ORGANIZATION") := by rw [h5]; decide
    have hn2 : ¬ (msg.type = "COORDINATE_BACKGROUND") := by rw [h5]; decide
    have hn3 : ¬ (msg.type = "SCHEDULE_MAINTENANCE") := by rw [h5]; decide
    have hn4 : ¬ (msg.type = "EXECUTE_MAINTENANCE") := by rw [h5]; decide
    have hresp : (orgProcess cfg e c st msg).response
        = some (handleGetOrganizationStatus e (tick e c).2 cfg st msg (tick e c).1).2.1 := by
      simp only [orgProcess]
      rw [if_neg hn1, if_neg hn2, if_neg hn3, if_neg hn4, if_pos h5]
    exact ⟨_, hresp, respC1_nonneg e c cfg _ hm
      (handleGetOrganizationStatus_c1 e (tick e c).2 cfg st msg (tick e c).1)⟩
  · have hn1 : ¬ (msg.type = "CREATE_ORGANIZATION") := by rw [h6]; decide
    have hn2 : ¬ (msg.type = "COORDINATE_BACKGROUND") := by rw [h6]; decide
    have hn3 : ¬ (msg.type = "SCHEDULE_MAINTENANCE") := by rw [h6]; decide
    have hn4 : ¬ (msg.type = "EXECUTE_MAINTENANCE") := by rw [h6]; decide
    have hn5 : ¬ (msg.type = "GET_ORGANIZATION_STATUS") := by rw [h6]; decide
    have hresp : (orgProcess cfg e c st msg).response
        = some (handleOptimizeOrganization e (tick e c).2 cfg st msg (tick e c).1).2.1 := by
      simp only [orgProcess]
      rw [if_neg hn1, if_neg hn2, if_neg hn3, if_neg hn4, if_neg hn5, if_pos h6]
    exact ⟨_, hresp, respC1_nonneg e c cfg _ hm
      (handleOptimizeOrganization_c1 e (tick e c).2 cfg st msg (tick e c).1)⟩
  · have hn1 : ¬ (msg.type = "CREATE_ORGANIZATION") := by rw [h7]; decide
    have hn2 : ¬ (msg.type = "COORDINATE_BACKGROUND") := by rw [h7]; decide
    have hn3 : ¬ (msg.type = "SCHEDULE_MAINTENANCE") := by rw [h7]; decide
    have hn4 : ¬ (msg.type = "EXECUTE_MAINTENANCE") := by rw [h7]; decide
    have hn5 : ¬ (msg.type = "GET_ORGANIZATION_STATUS") := by rw [h7]; decide
    have hn6 : ¬ (msg.type = "OPTIMIZE_ORGANIZATION") := by rw [h7]; decide
    have hresp : (orgProcess cfg e c st msg).response
        = some (handleSyncWithStateManagement e (tick e c).2 cfg st msg (tick e c).1).2.1 := by
      simp only [orgProcess]
      rw [if_neg hn1, if_neg hn2, if_neg hn3, if_neg hn4, if_neg hn5, if_neg hn6,
        if_pos h7]
    exact ⟨_, hresp, respC1_nonneg e c cfg _ hm
      (handleSyncWithStateManagement_c1 e (tick e c).2 cfg st msg (tick e c).1)⟩

theorem filterChannelsRand_t (e : Env) :
    ∀ (l : List String) (c : Cnt), ((filterChannelsRand e c l).2).t = c.t := by
  intro l
  induction l with
  | nil => intro c; rfl
  | cons ch rest ih => intro c; exact ih ⟨c.t, c.r + 1⟩

theorem assessQuality_some (e : Env) (c : Cnt) (o : OutputValue)
    (cr : Option CriteriaSpec) :
    ∃ qa c', assessQuality e c (some o) cr = Except.ok (qa, c') ∧ c.t ≤ c'.t := by
  rcases hid : o.id with _ | s
  · obtain ⟨qa, hq⟩ : ∃ qa, assessQuality e c (some o) cr
        = Except.ok (qa, ⟨c.t + 3, c.r + 5⟩) :=
      ⟨_, by simp only [assessQuality, hid]; rfl⟩
    exact ⟨qa, ⟨c.t + 3, c.r + 5⟩, hq, by show c.t ≤ c.t + 3; omega⟩
  · by_cases hs : s = ""
    · obtain ⟨qa, hq⟩ : ∃ qa, assessQuality e c (some o) cr
          = Except.ok (qa, ⟨c.t + 3, c.r + 5⟩) :=
        ⟨_, by simp only [assessQuality, hid]; rw [if_pos hs]; try rfl⟩
      exact ⟨qa, ⟨c.t + 3, c.r + 5⟩, hq, by show c.t ≤ c.t + 3; omega⟩
    · obtain ⟨qa, hq⟩ : ∃ qa, assessQuality e c (some o) cr
          = Except.ok (qa, ⟨c.t + 2, c.r + 5⟩) :=
        ⟨_, by simp only [assessQuality, hid]; rw [if_neg hs]; try rfl⟩
      exact ⟨qa, ⟨c.t + 2, c.r + 5⟩, hq, by show c.t ≤ c.t + 2; omega⟩

theorem promoteToChannels_some (e : Env) (c : Cnt) (ct : OutputValue)
    (channels : List String) (priority : Option String) :
    ∃ pr c', promoteToChannels e c (some ct) channels priority
      = Except.ok (pr, c') ∧ c.t ≤ c'.t := by
  rcases hF : filterChannelsRand e c channels with ⟨sc, c1⟩
  have hFt : c1.t = c.t := by
    have h := filterChannelsRand_t e channels c
    rw [hF] at h
    exact h
  rcases hid : ct.id with _ | s
  · obtain ⟨pr, hp⟩ : ∃ pr, promoteToChannels e c (some ct) channels priority
        = Except.ok (pr, ⟨c1.t + 2, c1.r + 2⟩) :=
      ⟨_, by simp only [promoteToChannels, hF, hid]; try rfl⟩
    exact ⟨pr, ⟨c1.t + 2, c1.r + 2⟩, hp, by show c.t ≤ c1.t + 2; omega⟩
  · by_cases hs : s = ""
    · obtain ⟨pr, hp⟩ : ∃ pr, promoteToChannels e c (some ct) channels priority
          = Except.ok (pr, ⟨c1.t + 2, c1.r + 2⟩) :=
        ⟨_, by simp only [promoteToChannels, hF, hid]; rw [if_pos hs]; try rfl⟩
      exact ⟨pr, ⟨c1.t + 2, c1.r + 2⟩, hp, by show c.t ≤ c1.t + 2; omega⟩
    · obtain ⟨pr, hp⟩ : ∃ pr, promoteToChannels e c (some ct) channels priority
          = Except.ok (pr, ⟨c1.t + 1, c1.r + 2⟩) :=
        ⟨_, by simp only [promoteToChannels, hF, hid]; rw [if_neg hs]; try rfl⟩
      exact ⟨pr, ⟨c1.t + 1, c1.r + 2⟩, hp, by show c.t ≤ c1.t + 1; omega⟩

theorem checkMarketReadiness_some (e : Env) (c : Cnt) (st : SalesState)
    (o : OutputValue) (req : Option Unit) :
    ∃ mr c', checkMarketReadiness e c st (some o) req = Except.ok (mr, c')
      ∧ c.t ≤ c'.t := by
  obtain ⟨qa, c1, hq, hle⟩ := assessQuality_some e c o none
  obtain ⟨mr, hmr⟩ : ∃ mr, checkMarketReadiness e c st (some o) req
      = Except.ok (mr, ⟨c1.t, c1.r + 3⟩) :=
    ⟨_, by simp only [checkMarketReadiness, hq]; try rfl⟩
  exact ⟨mr, ⟨c1.t, c1.r + 3⟩, hmr, by show c.t ≤ c1.t; omega⟩

theorem salesHandleQualityAssessment_c1 (e : Env) (c : Cnt) (cfg : ServiceConfig)
    (st : SalesState) (msg : ServiceMessage SalesPayload) (startTime : Nat)
    (o : OutputValue) (ho : msg.payload.output = some o) :
    ∃ st' r c', salesHandleQualityAssessment e c cfg st msg startTime
      = Except.ok (st', r, c') ∧
      r.payload.source = cfg.serviceName ∧
      ∃ j, c.t ≤ j ∧ r.payload.processingTime
        = (e.time j : Int) - (startTime : Int) := by
  obtain ⟨qa, c1, hq, hle⟩ := assessQuality_some e c o msg.payload.criteria
  have heq : salesHandleQualityAssessment e c cfg st msg startTime
      = Except.ok
        ({ st with assessmentHistory := st.assessmentHistory ++ [qa] },
         (mkResponse e c1 cfg startTime "QUALITY_ASSESSED" msg.source
           (SalesRespData.qualityAssessed qa)).1,
         (mkResponse e c1 cfg startTime "QUALITY_ASSESSED" msg.source
           (SalesRespData.qualityAssessed qa)).2) := by
    simp only [salesHandleQualityAssessment, ho, hq]
  exact ⟨_, _, _, heq, rfl, c1.t, hle, rfl⟩

theorem salesHandleOutputPromotion_c1 (e : Env) (c : Cnt) (cfg : ServiceConfig)
    (st : SalesState) (msg : ServiceMessage SalesPayload) (startTime : Nat)
    (ct : OutputValue) (hc : msg.payload.content = some ct) :
    ∃ st' r c', salesHandleOutputPromotion e c cfg st msg startTime
      = Except.ok (st', r, c') ∧
      r.payload.source = cfg.serviceName ∧
      ∃ j, c.t ≤ j ∧ r.payload.processingTime
        = (e.time j : Int) - (startTime : Int) := by
  obtain ⟨pr, c1, hp, hle⟩ := promoteToChannels_some e c ct
    (msg.payload.targetChannels.getD st.promotionChannels) msg.payload.priority
  have heq : salesHandleOutputPromotion e c cfg st msg startTime
      = Except.ok
        (st,
         (mkResponse e c1 cfg startTime "OUTPUT_PROMOTED" msg.source
           (SalesRespData.outputPromoted pr)).1,
         (mkResponse e c1 cfg startTime "OUTPUT_PROMOTED" msg.source
           (SalesRespData.outputPromoted pr)).2) := by
    simp only [salesHandleOutputPromotion, hc, hp]
  exact ⟨_, _, _, heq, rfl, c1.t, hle, rfl⟩

theorem salesHandleMarketReadinessCheck_c1 (e : Env) (c : Cnt)
    (cfg : ServiceConfig) (st : SalesState) (msg : ServiceMessage SalesPayload)
    (startTime : Nat) (o : OutputValue) (ho : msg.payload.output = some o) :
    ∃ st' r c', salesHandleMarketReadinessCheck e c cfg st msg startTime
      = Except.ok (st', r, c') ∧
      r.payload.source = cfg.serviceName ∧
      ∃ j, c.t ≤ j ∧ r.payload.processingTime
        = (e.time j : Int) - (startTime : Int) := by
  obtain ⟨mr, c1, hmr, hle⟩ := checkMarketReadiness_some e c st o
    msg.payload.requirements
  have heq : salesHandleMarketReadinessCheck e c cfg st msg startTime
      = Except.ok
        (st,
         (mkResponse e c1 cfg startTime "MARKET_READINESS_CHECKED" msg.source
           (SalesRespData.readinessChecked mr)).1,
         (mkResponse e c1 cfg startTime "MARKET_READINESS_CHECKED" msg.source
           (SalesRespData.readinessChecked mr)).2) := by
    simp only [salesHandleMarketReadinessCheck, ho, hmr]
  exact ⟨_, _, _, heq, rfl, c1.t, hle, rfl⟩

theorem salesHandleGetQualityMetrics_c1 (e : Env) (c : Cnt) (cfg : ServiceConfig)
    (st : SalesState) (msg : ServiceMessage SalesPayload) (startTime : Nat) :
    ∃ st' r c', salesHandleGetQualityMetrics e c cfg st msg startTime
      = Except.ok (st', r, c') ∧
      r.payload.source = cfg.serviceName ∧
      ∃ j, c.t ≤ j ∧ r.payload.processingTime
        = (e.time j : Int) - (startTime : Int) :=
  ⟨_, _, _, rfl, rfl, c.t, le_refl c.t, rfl⟩

theorem salesHandleMarketOptimization_c1 (e : Env) (c : Cnt) (cfg : ServiceConfig)
    (st : SalesState) (msg : ServiceMessage SalesPayload) (startTime : Nat)
    (o : OutputValue) (ho : msg.payload.output = some o) :
    ∃ st' r c', salesHandleMarketOptimization e c cfg st msg startTime
      = Except.ok (st', r, c') ∧
      r.payload.source = cfg.serviceName ∧
      ∃ j, c.t ≤ j ∧ r.payload.processingTime
        = (e.time j : Int) - (startTime : Int) := by
  obtain ⟨qa, c1, hq, hle⟩ := assessQuality_some e c o none
  have heq : salesHandleMarketOptimization e c cfg st msg startTime
      = Except.ok
        (st,
         (mkResponse e c1 cfg startTime "MARKET_OPTIMIZATION_COMPLETE" msg.source
           (SalesRespData.marketOptimized qa.qualityScore
             (generateMarketOptimizations msg.payload.output qa
               msg.payload.targetMarket)
             (((generateMarketOptimizations msg.payload.output qa
               msg.payload.targetMarket).length : Rat) * 0.05))).1,
         (mkResponse e c1 cfg startTime "MARKET_OPTIMIZATION_COMPLETE" msg.source
           (SalesRespData.marketOptimized qa.qualityScore
             (generateMarketOptimizations msg.payload.output qa
               msg.payload.targetMarket)
             (((generateMarketOptimizations msg.payload.output qa
               msg.payload.targetMarket).length : Rat) * 0.05))).2) := by
    simp only [salesHandleMarketOptimization, ho, hq]
  exact ⟨_, _, _, heq, rfl, c1.t, hle, rfl⟩

theorem processingTime_nonneg {D : Type} (e : Env) (c : Cnt)
    (r : ServiceMessage (RespPayload D)) (hm : Monotone e.time) (j : Nat)
    (hj : c.t + 1 ≤ j)
    (hpt : r.payload.processingTime = (e.time j : Int) - ((tick e c).1 : Int)) :
    0 ≤ r.payload.processingTime := by
  rw [hpt]
  have h1 : (tick e c).1 = e.time c.t := rfl
  rw [h1]
  have h2 : e.time c.t ≤ e.time j := hm (by omega)
  omega

theorem salesProcess_c1 (cfg : ServiceConfig) (e : Env) (c : Cnt)
    (st : SalesState) (msg : ServiceMessage SalesPayload)
    (hm : Monotone e.time) (htype : msg.type ∈ salesMessageTypes)
    (hout : msg.type = "ASSESS_QUALITY" ∨ msg.type = "CHECK_MARKET_READINESS" ∨
        msg.type = "OPTIMIZE_FOR_MARKET" → msg.payload.output.isSome)
    (hcontent : msg.type = "PROMOTE_OUTPUT" → msg.payload.content.isSome) :
    ∃ st' r c', (salesProcess cfg e c st msg).result
      = Except.ok (st', some r, c') ∧
      r.payload.source = cfg.serviceName ∧ 0 ≤ r.payload.processingTime := by
  simp only [salesMessageTypes, List.mem_cons, List.not_mem_nil, or_false] at htype
  rcases htype with h1 | h2 | h3 | h4 | h5
  · have hsome := hout (Or.inl h1)
    rcases ho : msg.payload.output with _ | o
    · rw [ho] at hsome
      simp at hsome
    · obtain ⟨st', r, c', hh, hsrc, j, hj, hpt⟩ :=
        salesHandleQualityAssessment_c1 e (tick e c).2 cfg st msg (tick e c).1 o ho
      have hres : (salesProcess cfg e c st msg).result
          = Except.ok (st', some r, c') := by
        simp only [salesProcess]
        rw [if_pos h1, hh]
        rfl
      exact ⟨st', r, c', hres, hsrc, processingTime_nonneg e c r hm j hj hpt⟩
  · have hn1 : ¬ (msg.type = "ASSESS_QUALITY") := by rw [h2]; decide
    have hsome := hcontent h2
    rcases hc : msg.payload.content with _ | ct
    · rw [hc] at hsome
      simp at hsome
    · obtain ⟨st', r, c', hh, hsrc, j, hj, hpt⟩ :=
        salesHandleOutputPromotion_c1 e (tick e c).2 cfg st msg (tick e c).1 ct hc
      have hres : (salesProcess cfg e c st msg).result
          = Except.ok (st', some r, c') := by
        simp only [salesProcess]
        rw [if_neg hn1, if_pos h2, hh]
        rfl
      exact ⟨st', r, c', hres, hsrc, processingTime_nonneg e c r hm j hj hpt⟩
  · have hn1 : ¬ (msg.type = "ASSESS_QUALITY") := by rw [h3]; decide
    have hn2 : ¬ (msg.type = "PROMOTE_OUTPUT") := by rw [h3]; decide
    have hsome := hout (Or.inr (Or.inl h3))
    rcases ho : msg.payload.output with _ | o
    · rw [ho] at hsome
      simp at hsome
    · obtain ⟨st', r, c', hh, hsrc, j, hj, hpt⟩ :=
        salesHandleMarketReadinessCheck_c1 e (tick e c).2 cfg st msg (tick e c).1 o ho
      have hres : (salesProcess cfg e c st msg).result
          = Except.ok (st', some r, c') := by
        simp only [salesProcess]
        rw [if_neg hn1, if_neg hn2, if_pos h3, hh]
        rfl
      exact ⟨st', r, c', hres, hsrc, processingTime_nonneg e c r hm j hj hpt⟩
  · have hn1 : ¬ (msg.type = "ASSESS_QUALITY") := by rw [h4]; decide
    have hn2 : ¬ (msg.type = "PROMOTE_OUTPUT") := by rw [h4]; decide
    have hn3 : ¬ (msg.type = "CHECK_MARKET_READINESS") := by rw [h4]; decide
    obtain ⟨st', r, c', hh, hsrc, j, hj, hpt⟩ :=
      salesHandleGetQualityMetrics_c1 e (tick e c).2 cfg st msg (tick e c).1
    have hres : (salesProcess cfg e c st msg).result
        = Except.ok (st', some r, c') := by
      simp only [salesProcess]
      rw [if_neg hn1, if_neg hn2, if_neg hn3, if_pos h4, hh]
      rfl
    exact ⟨st', r, c', hres, hsrc, processingTime_nonneg e c r hm j hj hpt⟩
  · have hn1 : ¬ (msg.type = "ASSESS_QUALITY") := by rw [h5]; decide
    have hn2 : ¬ (msg.type = "PROMOTE_OUTPUT") := by rw [h5]; decide
    have hn3 : ¬ (msg.type = "CHECK_MARKET_READINESS") := by rw [h5]; decide
    have hn4 : ¬ (msg.type = "GET_QUALITY_METRICS") := by rw [h5]; decide
    have hsome := hout (Or.inr (Or.inr h5))
    rcases ho : msg.payload.output with _ | o
    · rw [ho] at hsome
      simp at hsome
    · obtain ⟨st', r, c', hh, hsrc, j, hj, hpt⟩ :=
        salesHandleMarketOptimization_c1 e (tick e c).2 cfg st msg (tick e c).1 o ho
      have hres : (salesProcess cfg e c st msg).result
          = Except.ok (st', some r, c') := by
        simp only [salesProcess]
        rw [if_neg hn1, if_neg hn2, if_neg hn3, if_neg hn4, if_pos h5, hh]
        rfl
      exact ⟨st', r, c', hres, hsrc, processingTime_nonneg e c r hm j hj hpt⟩

/-- C1 (counterexample to the unconditional claim): `ASSESS_QUALITY` is a
recognized sales message type, yet processing it with a payload that carries
no `output` object makes the sales service throw a TypeError (the handler
dereferences `output.data`), so `process` produces no response envelope at
all for this recognized type. -/
theorem claimC1_counterexample :
    "ASSESS_QUALITY" ∈ salesMessageTypes ∧
    (salesProcess cfgSales envId ⟨0, 0⟩ initQualityFramework
      { id := "m-1", type := "ASSESS_QUALITY", payload := {}, source := "tester",
        destination := "sales-service", timestamp := 0 }).result
      = Except.error (JsError.typeError "Cannot read properties of undefined") :=
  ⟨by decide, rfl⟩

/-- C1 (corrected): for every recognized message type, `process` returns a
non-none response envelope whose `payload.source` is the service's configured
name and whose `payload.processingTime` is `≥ 0` (given a monotone clock) —
unconditionally for the seven Organization types, and for the five Sales
types only under the provisos that the payload carries the `output` object
when the type is `ASSESS_QUALITY`, `CHECK_MARKET_READINESS` or
`OPTIMIZE_FOR_MARKET`, and the `content` object when it is `PROMOTE_OUTPUT`
(otherwise the handler throws a TypeError instead of responding). -/
theorem claimC1_process_source_and_time :
    (∀ (cfg : ServiceConfig) (e : Env) (c : Cnt) (st : OrgState)
        (msg : ServiceMessage OrgPayload), Monotone e.time →
        msg.type ∈ orgMessageTypes →
        ∃ r, (orgProcess cfg e c st msg).response = some r ∧
          r.payload.source = cfg.serviceName ∧ 0 ≤ r.payload.processingTime) ∧
    (∀ (cfg : ServiceConfig) (e : Env) (c : Cnt) (st : SalesState)
        (msg : ServiceMessage SalesPayload), Monotone e.time →
        msg.type ∈ salesMessageTypes →
        (msg.type = "ASSESS_QUALITY" ∨ msg.type = "CHECK_MARKET_READINESS" ∨
          msg.type = "OPTIMIZE_FOR_MARKET" → msg.payload.output.isSome) →
        (msg.type = "PROMOTE_OUTPUT" → msg.payload.content.isSome) →
        ∃ st' r c', (salesProcess cfg e c st msg).result
          = Except.ok (st', some r, c') ∧
          r.payload.source = cfg.serviceName ∧ 0 ≤ r.payload.processingTime) :=
  ⟨fun cfg e c st msg hm ht => orgProcess_c1 cfg e c st msg hm ht,
   fun cfg e c st msg hm ht hout hcontent =>
     salesProcess_c1 cfg e c st msg hm ht hout hcontent⟩

/-- C1 witness: the corrected theorem applied at concrete inputs — a
`GET_ORGANIZATION_STATUS` message against the seeded organization state and a
`GET_QUALITY_METRICS` message against the seeded sales state, under the
identity clock. -/
theorem claimC1_witness :
    (∃ r, (orgProcess cfgOrg envId ⟨0, 0⟩
        (initOrganizationFramework envId ⟨0, 0⟩).1
        { id := "m-1", type := "GET_ORGANIZATION_STATUS", payload := {},
          source := "tester", destination := "organization-service",
          timestamp := 0 }).response = some r ∧
        r.payload.source = cfgOrg.serviceName ∧ 0 ≤ r.payload.processingTime) ∧
    (∃ st' r c', (salesProcess cfgSales envId ⟨0, 0⟩ initQualityFramework
        { id := "m-2", type := "GET_QUALITY_METRICS", payload := {},
          source := "tester", destination := "sales-service",
          timestamp := 0 }).result = Except.ok (st', some r, c') ∧
        r.payload.source = cfgSales.serviceName ∧
        0 ≤ r.payload.processingTime) :=
  ⟨claimC1_process_source_and_time.1 cfgOrg envId ⟨0, 0⟩
      (initOrganizationFramework envId ⟨0, 0⟩).1
      { id := "m-1", type := "GET_ORGANIZATION_STATUS", payload := {},
        source := "tester", destination := "organization-service",
        timestamp := 0 }
      envId_time_monotone (by decide),
   claimC1_process_source_and_time.2 cfgSales envId ⟨0, 0⟩ initQualityFramework
      { id := "m-2", type := "GET_QUALITY_METRICS", payload := {},
        source := "tester", destination := "sales-service", timestamp := 0 }
      envId_time_monotone (by decide) (by decide) (by decide)⟩
